import Mathlib

/-!  Shallow embedding of the Clotho configuration and execution engine
     (src/clotho): scalar values, configuration rows, the tabular database
     interface (clothodb.py / sqlitedb.py), the config resolver
     (utils.fill_config), resources (resource.py, resourceshed.py),
     parameters (toolparam.py) and the tool execution engine (tool.py). -/

/-- Python scalar values as stored in configs and table cells.
`null` stands for Python None and for a missing (NaN) cell. -/
inductive Value where
  | null : Value
  | b : Bool → Value
  | i : Int → Value
  | s : String → Value
deriving DecidableEq, Repr

/-- Python str() of a scalar. -/
def pyStr : Value → String
  | .null => "None"
  | .b true => "True"
  | .b false => "False"
  | .i n => toString n
  | .s st => st

/-- Python truthiness of a scalar. -/
def pyTruthy : Value → Bool
  | .null => false
  | .b bo => bo
  | .i n => n != 0
  | .s st => st != ""

/-- Python str.lower() over the ASCII range. -/
def pyLower (s : String) : String :=
  String.mk (s.data.map (fun c =>
    if 65 ≤ c.toNat ∧ c.toNat ≤ 90 then Char.ofNat (c.toNat + 32) else c))

deriving instance DecidableEq for Except

/-- First value bound to key k in an association list (Python dict lookup). -/
def alGet {α β : Type} [BEq α] (l : List (α × β)) (k : α) : Option β :=
  match l.find? (fun kv => kv.1 == k) with
  | some kv => some kv.2
  | none => none

/-- Whether the dict binds key k. -/
def alHasKey {α β : Type} [BEq α] (l : List (α × β)) (k : α) : Bool :=
  l.any (fun kv => kv.1 == k)

/-- Python dict assignment d[k] = v: replace the binding in place, else append. -/
def alSet {α β : Type} [BEq α] (l : List (α × β)) (k : α) (v : β) : List (α × β) :=
  if alHasKey l k then l.map (fun kv => if kv.1 == k then (k, v) else kv)
  else l ++ [(k, v)]

/-- Python dict.pop(k): remove the binding for k. -/
def alRemove {α β : Type} [BEq α] (l : List (α × β)) (k : α) : List (α × β) :=
  l.filter (fun kv => !(kv.1 == k))

/-- A configuration record / table row: an ordered field-to-value mapping. -/
abbrev Row : Type := List (String × Value)

/-- Python d.get(k): the bound value, or None when the key is absent. -/
def pyGet (r : Row) (k : String) : Value :=
  (alGet r k).getD Value.null

/-- Python d.get(k, dflt). -/
def pyGetD (r : Row) (k : String) (dflt : Value) : Value :=
  (alGet r k).getD dflt

/-- Python d[k] = v on a row. -/
def rowSet (r : Row) (k : String) (v : Value) : Row := alSet r k v

/-- utils.get_case_insensitive: first value whose key matches up to case,
else the default. -/
def get_case_insensitive (d : Row) (key : String) (default_value : Value) : Value :=
  match d.find? (fun kv => pyLower kv.1 == pyLower key) with
  | some kv => kv.2
  | none => default_value

/-- Whether the dictionary defines the key up to case
(the found-branch of get_case_insensitive). -/
def hasKeyCI (d : Row) (key : String) : Bool :=
  d.any (fun kv => pyLower kv.1 == pyLower key)

/-- A database table: column names plus rows. -/
structure Table where
  cols : List String
  rows : List Row
deriving DecidableEq, Repr

/-- The tabular store: named tables.  A missing name models a table that
sqlitedb.get fails to read (it returns None). -/
abbrev DB : Type := List (String × Table)

def dbGetTable (db : DB) (name : String) : Option Table := alGet db name

def dbSetTable (db : DB) (name : String) (t : Table) : DB := alSet db name t

/-- Exact-equality cell match, as produced by the quoted query strings
(SQL/pandas equality: a NULL cell matches nothing). -/
def cellEq (r : Row) (key : String) (v : Value) : Bool :=
  match alGet r key with
  | some c => c == v && !(c == Value.null)
  | none => false

/-- Case-insensitive cell match of clothodb.get_row_insensitive:
df[key].str.lower() == str(value).lower()  (a non-string cell never matches). -/
def cellEqCI (r : Row) (key : String) (v : Value) : Bool :=
  match alGet r key with
  | some (Value.s c) => pyLower c == pyLower (pyStr v)
  | _ => false

/-- clothodb.ClothoDB.get_row: at most one row may match the key/value pair;
several matches raise, none returns None. -/
def ClothoDB.get_row (db : DB) (table_name key : String) (value : Value) :
    Except String (Option Row) :=
  match dbGetTable db table_name with
  | none => .ok none
  | some t =>
    match t.rows.filter (fun r => cellEq r key value) with
    | [] => .ok none
    | [r] => .ok (some r)
    | _ :: _ :: _ => .error ("Multiple rows in " ++ table_name)

/-- clothodb.ClothoDB.get_row_insensitive. -/
def ClothoDB.get_row_insensitive (db : DB) (table_name key : String) (value : Value) :
    Except String (Option Row) :=
  match dbGetTable db table_name with
  | none => .ok none
  | some t =>
    match t.rows.filter (fun r => cellEqCI r key value) with
    | [] => .ok none
    | [r] => .ok (some r)
    | _ :: _ :: _ => .error ("Multiple rows in " ++ table_name ++ " for " ++ key)

/-- clothodb.ClothoDB.get_columns: reading the columns of a missing table
crashes (None.columns). -/
def ClothoDB.get_columns (db : DB) (table_name : String) : Except String (List String) :=
  match dbGetTable db table_name with
  | none => .error ("AttributeError reading columns of " ++ table_name)
  | some t => .ok t.cols

/-- clothodb.ClothoDB.set_row: drop every stored row whose id column equals the
new row's id, then append the new row (insert-or-replace keyed by id_col). -/
def ClothoDB.set_row (db : DB) (table_name : String) (row : Row) (id_col : String) : DB :=
  let t :=
    match dbGetTable db table_name with
    | none => Table.mk [] []
    | some t0 =>
      Table.mk t0.cols (t0.rows.filter (fun r => !(pyGet r id_col == pyGet row id_col)))
  dbSetTable db table_name (Table.mk t.cols (t.rows ++ [row]))

/-- sqlitedb.SQLiteDB.update via clothodb.ClothoDB.update: on each row matching
the query column/value, set the given fields, skipping null-valued ones.
Updating a missing table raises. -/
def ClothoDB.update (db : DB) (table_name query_col : String) (query_val : Value)
    (vals : Row) : Except String DB :=
  match dbGetTable db table_name with
  | none => .error ("OperationalError updating " ++ table_name)
  | some t =>
    let app := fun (r : Row) =>
      if cellEq r query_col query_val then
        vals.foldl (fun acc kv => if kv.2 == Value.null then acc else rowSet acc kv.1 kv.2) r
      else r
    .ok (dbSetTable db table_name (Table.mk t.cols (t.rows.map app)))

/-- Steps 1 to 3 of utils.fill_config: locate the persisted row, by identifier
first and then by the fallback name column. -/
def fill_config_row (db : DB) (table_name id_column : String) (config : Row)
    (id : Value) (name_column : Option String) : Except String (Option Row) :=
  let id := get_case_insensitive config id_column id
  let step1 : Except String (Option Row) :=
    if id == Value.null then .ok none
    else ClothoDB.get_row_insensitive db table_name id_column id
  match step1 with
  | .error e => .error e
  | .ok (some r) => .ok (some r)
  | .ok none =>
    match name_column with
    | none => .ok none
    | some nc =>
      if nc == "" then .ok none
      else
        let name := get_case_insensitive config nc Value.null
        if pyTruthy name then ClothoDB.get_row_insensitive db table_name nc name
        else .ok none

/-- utils.fill_config: resolve the persisted row (or a blank row over the
table's columns), then overwrite each field with the caller-supplied value
when the partial config defines it, matched case-insensitively. -/
def fill_config (db : DB) (table_name id_column : String) (config : Row)
    (id : Value) (name_column : Option String) : Except String Row :=
  match fill_config_row db table_name id_column config id name_column with
  | .error e => .error e
  | .ok row? =>
    let blankOr : Except String Row :=
      match row? with
      | some r => .ok r
      | none =>
        match ClothoDB.get_columns db table_name with
        | .error e => .error e
        | .ok columns => .ok (columns.map (fun c => (c, Value.null)))
    match blankOr with
    | .error e => .error e
    | .ok row => .ok (row.map (fun kv => (kv.1, get_case_insensitive config kv.1 kv.2)))

theorem alGet_cons {α β : Type} [BEq α] (kv : α × β) (l : List (α × β)) (k : α) :
    alGet (kv :: l) k = if kv.1 == k then some kv.2 else alGet l k := by
  unfold alGet
  rw [List.find?]
  by_cases h : kv.1 == k <;> simp [h]

theorem hasKeyCI_cons (kv : String × Value) (l : List (String × Value)) (k : String) :
    hasKeyCI (kv :: l) k = (pyLower kv.1 == pyLower k || hasKeyCI l k) := by
  simp only [hasKeyCI, List.any_cons]

theorem get_ci_cons (kv : String × Value) (l : List (String × Value)) (k : String)
    (dflt : Value) :
    get_case_insensitive (kv :: l) k dflt =
      if pyLower kv.1 == pyLower k then kv.2 else get_case_insensitive l k dflt := by
  unfold get_case_insensitive
  rw [List.find?]
  by_cases h : pyLower kv.1 == pyLower k <;> simp [h]

theorem alGet_map_apply {β : Type} (g : String → β → β) (l : List (String × β)) (k : String) :
    alGet (l.map (fun kv => (kv.1, g kv.1 kv.2))) k = (alGet l k).map (g k) := by
  induction l with
  | nil => rfl
  | cons kv rest ih =>
    rw [List.map_cons, alGet_cons, alGet_cons]
    by_cases h : kv.1 == k
    · have hk : kv.1 = k := beq_iff_eq.mp h
      subst hk
      simp [h]
    · simp [h, ih]

theorem get_ci_of_hasKey (d : Row) (k : String) (h : hasKeyCI d k = true)
    (d₁ d₂ : Value) : get_case_insensitive d k d₁ = get_case_insensitive d k d₂ := by
  induction d with
  | nil => simp [hasKeyCI] at h
  | cons kv rest ih =>
    rw [hasKeyCI_cons] at h
    rw [get_ci_cons, get_ci_cons]
    by_cases hk : pyLower kv.1 == pyLower k
    · simp [hk]
    · simp only [hk, Bool.false_or] at h
      simp only [hk, if_false]
      exact ih h

theorem get_ci_of_not_hasKey (d : Row) (k : String) (h : hasKeyCI d k = false)
    (dflt : Value) : get_case_insensitive d k dflt = dflt := by
  induction d with
  | nil => rfl
  | cons kv rest ih =>
    rw [hasKeyCI_cons] at h
    rw [get_ci_cons]
    by_cases hk : pyLower kv.1 == pyLower k
    · rw [hk] at h
      simp at h
    · simp only [hk, Bool.false_or] at h
      simp only [hk, if_false]
      exact ih h

theorem alGet_const_null (cols : List String) (f : String) (x : Value)
    (h : alGet (cols.map (fun c => (c, Value.null))) f = some x) : x = Value.null := by
  induction cols with
  | nil => simp [alGet] at h
  | cons c rest ih =>
    rw [List.map_cons, alGet_cons] at h
    by_cases hc : c == f
    · simp [hc] at h
      exact h.symm
    · simp only [hc, if_false] at h
      exact ih h

/-- C1: configuration-resolution precedence of utils.fill_config.  For every
field of the resolved record: a caller-supplied value for the field (matched
case-insensitively) always wins; otherwise, when a persisted row matched, the
persisted value is kept; otherwise the field is null. -/
theorem fill_config_precedence
    (db : DB) (table_name id_column : String) (config : Row) (id : Value)
    (name_column : Option String) (row? : Option Row) (result : Row)
    (hrow : fill_config_row db table_name id_column config id name_column = .ok row?)
    (hres : fill_config db table_name id_column config id name_column = .ok result)
    (f : String) (v : Value) (hf : alGet result f = some v) :
    (hasKeyCI config f = true → v = get_case_insensitive config f Value.null) ∧
    (hasKeyCI config f = false →
      ((∀ r, row? = some r → ∃ dbv, alGet r f = some dbv ∧ v = dbv) ∧
       (row? = none → v = Value.null))) := by
  unfold fill_config at hres
  rw [hrow] at hres
  have merge :
      ∀ row : Row,
        result = row.map (fun kv => (kv.1, get_case_insensitive config kv.1 kv.2)) →
        (hasKeyCI config f = true → v = get_case_insensitive config f Value.null) ∧
        (hasKeyCI config f = false → ∃ dbv, alGet row f = some dbv ∧ v = dbv) := by
    intro row hrw
    rw [hrw] at hf
    rw [alGet_map_apply (fun k w => get_case_insensitive config k w) row f] at hf
    rcases hdb : alGet row f with _ | dbv
    · rw [hdb] at hf
      simp at hf
    · rw [hdb] at hf
      have hv : v = get_case_insensitive config f dbv :=
        (Option.some.inj (hf : some (get_case_insensitive config f dbv) = some v)).symm
      constructor
      · intro hk
        rw [hv]
        exact get_ci_of_hasKey config f hk dbv Value.null
      · intro hk
        refine ⟨dbv, rfl, ?_⟩
        rw [hv]
        exact get_ci_of_not_hasKey config f hk dbv
  cases row? with
  | some r =>
    have hres' :
        Except.ok (r.map (fun kv => (kv.1, get_case_insensitive config kv.1 kv.2))) =
          (Except.ok result : Except String Row) := hres
    have hr := (Except.ok.inj hres').symm
    have hm := merge r hr
    refine ⟨hm.1, fun hk => ⟨?_, ?_⟩⟩
    · intro r' hr'
      cases hr'
      exact (hm.2 hk)
    · intro hnone
      cases hnone
  | none =>
    rcases hcols : ClothoDB.get_columns db table_name with e | columns
    · rw [hcols] at hres
      have hres' : (Except.error e : Except String Row) = .ok result := hres
      simp at hres'
    · rw [hcols] at hres
      have hres' :
          Except.ok ((columns.map (fun c => (c, Value.null))).map
            (fun kv => (kv.1, get_case_insensitive config kv.1 kv.2))) =
            (Except.ok result : Except String Row) := hres
      have hr := (Except.ok.inj hres').symm
      have hm := merge (columns.map (fun c => (c, Value.null))) hr
      refine ⟨hm.1, fun hk => ⟨?_, ?_⟩⟩
      · intro r' hr'
        cases hr'
      · intro _
        rcases hm.2 hk with ⟨dbv, hget, hveq⟩
        rw [hveq]
        exact alGet_const_null columns f dbv hget

/-- A persisted Tools row used by concrete examples. -/
def exampleToolsRow : Row :=
  [("ToolID", Value.s "t1"), ("Name", Value.s "Frob"), ("Path", Value.s "m.f")]

/-- A small concrete store used by concrete examples. -/
def exampleDB : DB :=
  [("Tools", Table.mk ["ToolID", "Name", "Path"] [exampleToolsRow])]

/-- A caller-supplied partial configuration used by concrete examples. -/
def exampleConfig : Row :=
  [("name", Value.s "Frob"), ("Path", Value.s "x.y")]

theorem fill_config_precedence_witness :
    (hasKeyCI exampleConfig "Path" = true →
      Value.s "x.y" = get_case_insensitive exampleConfig "Path" Value.null) ∧
    (hasKeyCI exampleConfig "Path" = false →
      ((∀ r, some exampleToolsRow = some r →
          ∃ dbv, alGet r "Path" = some dbv ∧ Value.s "x.y" = dbv) ∧
       (some exampleToolsRow = none → Value.s "x.y" = Value.null))) :=
  fill_config_precedence exampleDB "Tools" "ToolID" exampleConfig Value.null
    (some "Name") (some exampleToolsRow)
    [("ToolID", Value.s "t1"), ("Name", Value.s "Frob"), ("Path", Value.s "x.y")]
    (by rfl) (by rfl) "Path" (Value.s "x.y") (by rfl)

/-- C7: row lookup by key.  With more than one matching persisted row both
get_row and get_row_insensitive raise; with exactly one they return it; with
none they return None without error. -/
theorem get_row_unique
    (db : DB) (table_name key : String) (value : Value) (t : Table)
    (ht : dbGetTable db table_name = some t) :
    (2 ≤ (t.rows.filter (fun r => cellEq r key value)).length →
      ∃ e, ClothoDB.get_row db table_name key value = .error e) ∧
    (∀ r, t.rows.filter (fun r => cellEq r key value) = [r] →
      ClothoDB.get_row db table_name key value = .ok (some r)) ∧
    (t.rows.filter (fun r => cellEq r key value) = [] →
      ClothoDB.get_row db table_name key value = .ok none) ∧
    (2 ≤ (t.rows.filter (fun r => cellEqCI r key value)).length →
      ∃ e, ClothoDB.get_row_insensitive db table_name key value = .error e) ∧
    (∀ r, t.rows.filter (fun r => cellEqCI r key value) = [r] →
      ClothoDB.get_row_insensitive db table_name key value = .ok (some r)) ∧
    (t.rows.filter (fun r => cellEqCI r key value) = [] →
      ClothoDB.get_row_insensitive db table_name key value = .ok none) := by
  have heq : ClothoDB.get_row db table_name key value =
      (match t.rows.filter (fun r => cellEq r key value) with
       | [] => .ok none
       | [r] => .ok (some r)
       | _ :: _ :: _ => .error ("Multiple rows in " ++ table_name)) := by
    unfold ClothoDB.get_row
    rw [ht]
  have heqCI : ClothoDB.get_row_insensitive db table_name key value =
      (match t.rows.filter (fun r => cellEqCI r key value) with
       | [] => .ok none
       | [r] => .ok (some r)
       | _ :: _ :: _ => .error ("Multiple rows in " ++ table_name ++ " for " ++ key)) := by
    unfold ClothoDB.get_row_insensitive
    rw [ht]
  refine ⟨?_, ?_, ?_, ?_, ?_, ?_⟩
  · intro h2
    rw [heq]
    rcases hms : t.rows.filter (fun r => cellEq r key value) with _ | ⟨r, _ | ⟨r2, rest⟩⟩
    · rw [hms] at h2
      simp at h2
    · rw [hms] at h2
      simp at h2
    · exact ⟨_, rfl⟩
  · intro r hr
    rw [heq, hr]
  · intro hr
    rw [heq, hr]
  · intro h2
    rw [heqCI]
    rcases hms : t.rows.filter (fun r => cellEqCI r key value) with _ | ⟨r, _ | ⟨r2, rest⟩⟩
    · rw [hms] at h2
      simp at h2
    · rw [hms] at h2
      simp at h2
    · exact ⟨_, rfl⟩
  · intro r hr
    rw [heqCI, hr]
  · intro hr
    rw [heqCI, hr]

theorem get_row_unique_witness :
    (2 ≤ ((Table.mk ["ToolID", "Name", "Path"] [exampleToolsRow]).rows.filter
        (fun r => cellEq r "Name" (Value.s "Frob"))).length →
      ∃ e, ClothoDB.get_row exampleDB "Tools" "Name" (Value.s "Frob") = .error e) ∧
    (∀ r, (Table.mk ["ToolID", "Name", "Path"] [exampleToolsRow]).rows.filter
        (fun r => cellEq r "Name" (Value.s "Frob")) = [r] →
      ClothoDB.get_row exampleDB "Tools" "Name" (Value.s "Frob") = .ok (some r)) ∧
    ((Table.mk ["ToolID", "Name", "Path"] [exampleToolsRow]).rows.filter
        (fun r => cellEq r "Name" (Value.s "Frob")) = [] →
      ClothoDB.get_row exampleDB "Tools" "Name" (Value.s "Frob") = .ok none) ∧
    (2 ≤ ((Table.mk ["ToolID", "Name", "Path"] [exampleToolsRow]).rows.filter
        (fun r => cellEqCI r "Name" (Value.s "Frob"))).length →
      ∃ e, ClothoDB.get_row_insensitive exampleDB "Tools" "Name" (Value.s "Frob") = .error e) ∧
    (∀ r, (Table.mk ["ToolID", "Name", "Path"] [exampleToolsRow]).rows.filter
        (fun r => cellEqCI r "Name" (Value.s "Frob")) = [r] →
      ClothoDB.get_row_insensitive exampleDB "Tools" "Name" (Value.s "Frob") = .ok (some r)) ∧
    ((Table.mk ["ToolID", "Name", "Path"] [exampleToolsRow]).rows.filter
        (fun r => cellEqCI r "Name" (Value.s "Frob")) = [] →
      ClothoDB.get_row_insensitive exampleDB "Tools" "Name" (Value.s "Frob") = .ok none) :=
  get_row_unique exampleDB "Tools" "Name" (Value.s "Frob")
    (Table.mk ["ToolID", "Name", "Path"] [exampleToolsRow]) (by rfl)

/-- Ambient mutable state threaded through the engine: the tabular store, the
log, the trace of invocation-target calls, a uuid counter and a clock
(timestamps abstracted to a monotone counter). -/
structure World where
  db : DB
  log : List String
  calls : List (String × List (Value × Value))
  nextUuid : Nat
  now : Nat
deriving DecidableEq, Repr

/-- str(uuid.uuid1()): a fresh identifier. -/
def freshUuid (w : World) : Value × World :=
  (Value.s ("uuid-" ++ toString w.nextUuid),
   World.mk w.db w.log w.calls (w.nextUuid + 1) w.now)

/-- utils.get_now: the current clock reading, advancing the clock. -/
def getNow (w : World) : Nat × World :=
  (w.now, World.mk w.db w.log w.calls w.nextUuid (w.now + 1))

/-- utils.get_time_string of a clock reading. -/
def get_time_string (n : Nat) : String := toString n

/-- utils.get_time_string of a duration (end minus start). -/
def durationString (startT endT : Nat) : String := toString (endT - startT)

def logAdd (w : World) (msg : String) : World :=
  World.mk w.db (w.log ++ [msg]) w.calls w.nextUuid w.now

def dbWrite (w : World) (db : DB) : World :=
  World.mk db w.log w.calls w.nextUuid w.now

/-- resource.Resource: its resolved configuration row and the persisted row of
its parent, when one was found. -/
structure Resource where
  config : Row
  parent_row : Option Row
deriving DecidableEq, Repr

/-- resource.Resource.init_parent: resolve the Parent field against the store,
by identifier and then by name; an unresolvable parent is dropped with a
warning. -/
def Resource.init_parent (db : DB) (config : Row) : Except String Resource :=
  let parent_val := pyGet config "Parent"
  if pyTruthy parent_val = false then .ok (Resource.mk config none)
  else
    match ClothoDB.get_row db "Resources" "ResourceID" parent_val with
    | .error e => .error e
    | .ok pr1 =>
      let step2 : Except String (Option Row) :=
        match pr1 with
        | some r => .ok (some r)
        | none => ClothoDB.get_row_insensitive db "Resources" "Name" parent_val
      match step2 with
      | .error e => .error e
      | .ok none => .ok (Resource.mk config none)
      | .ok (some pr) =>
        .ok (Resource.mk (rowSet config "Parent" (pyGet pr "ResourceID")) (some pr))

/-- resource.Resource.configure: fill the config by ResourceID; if that leaves
no identifier, fill it again with Name as the lookup column. -/
def Resource.configure (db : DB) (config : Row) (id : Value) : Except String Resource :=
  match fill_config db "Resources" "ResourceID" config id none with
  | .error e => .error e
  | .ok filled =>
    if pyTruthy (pyGet filled "ResourceID") then Resource.init_parent db filled
    else
      match fill_config db "Resources" "Name" config Value.null none with
      | .error e => .error e
      | .ok filled2 => Resource.init_parent db filled2

/-- Resource(db, id=...): construction from an identifier alone. -/
def resource_by_id (db : DB) (id : Value) : Except String Resource :=
  Resource.configure db [] id

/-- resource.Resource.commit: assign a fresh ResourceID when absent, then
insert-or-replace the Resources row keyed by ResourceID. -/
def Resource.commit (w : World) (r : Resource) : Resource × World :=
  let step :=
    if pyTruthy (pyGet r.config "ResourceID") = false then
      let u := freshUuid w
      (Resource.mk (rowSet r.config "ResourceID" u.1) r.parent_row, u.2)
    else (r, w)
  (step.1, dbWrite step.2 (ClothoDB.set_row step.2.db "Resources" step.1.config "ResourceID"))

/-- The Path setter of resource.Resource. -/
def Resource.set_path (r : Resource) (v : Value) : Resource :=
  Resource.mk (rowSet r.config "Path" v) r.parent_row

/-- resourceshed.ResourceShed: the name-keyed cache of Resource instances
(the heap of shared mutable Resource objects). -/
abbrev ResourceShed := List (Value × Resource)

/-- resourceshed.ResourceShed.get: return the cached instance, else construct
a Resource configured only by name and cache it. -/
def ResourceShed.get (db : DB) (shed : ResourceShed) (name : Value) :
    Except String (Resource × ResourceShed) :=
  match alGet shed name with
  | some r => .ok (r, shed)
  | none =>
    match Resource.configure db [("Name", name)] Value.null with
    | .error e => .error e
    | .ok r => .ok (r, shed ++ [(name, r)])

/-- Mutating the path of the cached instance through any holder: the shed
entry for that name is updated in place. -/
def ResourceShed.setPath (shed : ResourceShed) (name : Value) (v : Value) : ResourceShed :=
  shed.map (fun kv => if kv.1 == name then (kv.1, Resource.set_path kv.2 v) else kv)

/-- The parent lookup inside the path getter of resource.Resource: through the
shed when one is attached, else a fresh Resource built from the parent row's
identifier. -/
def Resource.resolve_parent (db : DB) (shed? : Option ResourceShed) (pr : Row) :
    Except String (Resource × Option ResourceShed) :=
  match shed? with
  | some shed =>
    match ResourceShed.get db shed (pyGet pr "Name") with
    | .error e => .error e
    | .ok (par, shed') => .ok (par, some shed')
  | none =>
    match resource_by_id db (pyGet pr "ResourceID") with
    | .error e => .error e
    | .ok par => .ok (par, none)

/-- The path property of resource.Resource: the parent's full path, a slash,
and the resource's own Path component; null propagates as null.  Recursion
along the parent chain is fuel-bounded (the source recurses unboundedly and a
cyclic Parent chain would not terminate). -/
def Resource.path (db : DB) : Nat → Resource → Option ResourceShed →
    Except String (Value × Option ResourceShed)
  | 0, _, _ => .error "RecursionError"
  | fuel+1, r, shed? =>
    let p := pyGet r.config "Path"
    match r.parent_row with
    | none => .ok (p, shed?)
    | some pr =>
      match Resource.resolve_parent db shed? pr with
      | .error e => .error e
      | .ok (par, shed₁) =>
        match Resource.path db fuel par shed₁ with
        | .error e => .error e
        | .ok (pp, shed₂) =>
          if pp == Value.null || p == Value.null then .ok (Value.null, shed₂)
          else
            match pp with
            | Value.s sp => .ok (Value.s (sp ++ "/" ++ pyStr p), shed₂)
            | _ => .error "TypeError"

theorem alGet_append {α β : Type} [BEq α] (l₁ l₂ : List (α × β)) (k : α)
    (h : alGet l₁ k = none) : alGet (l₁ ++ l₂) k = alGet l₂ k := by
  induction l₁ with
  | nil => rfl
  | cons kv rest ih =>
    rw [alGet_cons] at h
    rw [List.cons_append, alGet_cons]
    by_cases hk : kv.1 == k
    · rw [if_pos hk] at h
      cases h
    · rw [if_neg hk] at h ⊢
      exact ih h

theorem alGet_map_entry {α β : Type} [BEq α] [LawfulBEq α] (g : α → β → β)
    (l : List (α × β)) (k : α) :
    alGet (l.map (fun kv => (kv.1, g kv.1 kv.2))) k = (alGet l k).map (g k) := by
  induction l with
  | nil => rfl
  | cons kv rest ih =>
    rw [List.map_cons, alGet_cons, alGet_cons]
    by_cases h : kv.1 == k
    · have hk : kv.1 = k := eq_of_beq h
      subst hk
      simp [h]
    · simp [h, ih]

theorem alGet_map_of_fn {α β : Type} [BEq α] [LawfulBEq α] (f : α → β)
    (cols : List α) (k : α) :
    alGet (cols.map (fun c => (c, f c))) k =
      if cols.contains k then some (f k) else none := by
  induction cols with
  | nil => rfl
  | cons c rest ih =>
    rw [List.map_cons, alGet_cons, List.contains_cons, ih]
    by_cases h : c == k
    · have hk : c = k := eq_of_beq h
      subst hk
      simp
    · have h2 : (k == c) = false := by
        by_cases hkc : k = c
        · subst hkc
          exact absurd (by simp : (k == k) = true) h
        · exact beq_eq_false_iff_ne.mpr hkc
      rw [if_neg h, h2, Bool.false_or]

theorem get_row_le_one (db : DB) (table_name key : String) (value : Value) (t : Table)
    (ht : dbGetTable db table_name = some t)
    (h1 : (t.rows.filter (fun r => cellEq r key value)).length ≤ 1) :
    ClothoDB.get_row db table_name key value =
      .ok (t.rows.filter (fun r => cellEq r key value)).head? := by
  have heq : ClothoDB.get_row db table_name key value =
      (match t.rows.filter (fun r => cellEq r key value) with
       | [] => .ok none
       | [r] => .ok (some r)
       | _ :: _ :: _ => .error ("Multiple rows in " ++ table_name)) := by
    unfold ClothoDB.get_row
    rw [ht]
  rw [heq]
  rcases hms : t.rows.filter (fun r => cellEq r key value) with _ | ⟨r, _ | ⟨r2, rest⟩⟩
  · rfl
  · rfl
  · rw [hms] at h1
    simp at h1

theorem get_row_insensitive_le_one (db : DB) (table_name key : String) (value : Value)
    (t : Table) (ht : dbGetTable db table_name = some t)
    (h1 : (t.rows.filter (fun r => cellEqCI r key value)).length ≤ 1) :
    ClothoDB.get_row_insensitive db table_name key value =
      .ok (t.rows.filter (fun r => cellEqCI r key value)).head? := by
  have heq : ClothoDB.get_row_insensitive db table_name key value =
      (match t.rows.filter (fun r => cellEqCI r key value) with
       | [] => .ok none
       | [r] => .ok (some r)
       | _ :: _ :: _ => .error ("Multiple rows in " ++ table_name ++ " for " ++ key)) := by
    unfold ClothoDB.get_row_insensitive
    rw [ht]
  rw [heq]
  rcases hms : t.rows.filter (fun r => cellEqCI r key value) with _ | ⟨r, _ | ⟨r2, rest⟩⟩
  · rfl
  · rfl
  · rw [hms] at h1
    simp at h1

theorem get_ci_singleton (k₀ : String) (v₀ : Value) (c : String) (d : Value) :
    get_case_insensitive [(k₀, v₀)] c d =
      if pyLower k₀ == pyLower c then v₀ else d := by
  unfold get_case_insensitive
  rw [List.find?]
  cases h : pyLower k₀ == pyLower c <;> simp [h]

/-- Resources row A of the three-level chain example. -/
def resChainRowA : Row :=
  [("ResourceID", Value.s "A"), ("Name", Value.s "A"),
   ("Path", Value.s "X:"), ("Parent", Value.null)]

/-- Resources row B of the three-level chain example (parent A). -/
def resChainRowB : Row :=
  [("ResourceID", Value.s "B"), ("Name", Value.s "B"),
   ("Path", Value.s "GIS"), ("Parent", Value.s "A")]

/-- Resources row C of the three-level chain example (parent B). -/
def resChainRowC : Row :=
  [("ResourceID", Value.s "C"), ("Name", Value.s "C"),
   ("Path", Value.s "asdf"), ("Parent", Value.s "B")]

/-- The store holding the three-level chain. -/
def resChainDB : DB :=
  [("Resources", Table.mk ["ResourceID", "Name", "Path", "Parent"]
    [resChainRowA, resChainRowB, resChainRowC])]

/-- Construct a resource by id and read its path (no shed attached). -/
def path_by_id (db : DB) (fuel : Nat) (id : Value) :
    Except String (Value × Option ResourceShed) :=
  match resource_by_id db id with
  | .error e => .error e
  | .ok r => Resource.path db fuel r none

/-- Construct a resource by id, reassign its Path, then read its path. -/
def path_by_id_after_set (db : DB) (fuel : Nat) (id v : Value) :
    Except String (Value × Option ResourceShed) :=
  match resource_by_id db id with
  | .error e => .error e
  | .ok r => Resource.path db fuel (Resource.set_path r v) none

/-- Construct a resource from a partial config and read its path. -/
def path_of_config (db : DB) (fuel : Nat) (config : Row) :
    Except String (Value × Option ResourceShed) :=
  match Resource.configure db config Value.null with
  | .error e => .error e
  | .ok r => Resource.path db fuel r none

/-- A store whose Resources table has no rows: any Parent reference is
unresolvable. -/
def resLoneDB : DB :=
  [("Resources", Table.mk ["ResourceID", "Name", "Path", "Parent"] [])]

/-- A resource declaring a Parent that does not exist in the store. -/
def resLoneConfig : Row :=
  [("Name", Value.s "C"), ("Path", Value.s "asdf"), ("Parent", Value.s "B")]

theorem Resource.path_eq_some (db : DB) (fuel : Nat) (r : Resource)
    (shed? : Option ResourceShed) (pr : Row) (hpr : r.parent_row = some pr) :
    Resource.path db (fuel + 1) r shed? =
      (match Resource.resolve_parent db shed? pr with
       | .error e => .error e
       | .ok (par, shed₁) =>
         match Resource.path db fuel par shed₁ with
         | .error e => .error e
         | .ok (pp, shed₂) =>
           if (pp == Value.null || pyGet r.config "Path" == Value.null) then
             .ok (Value.null, shed₂)
           else
             match pp with
             | Value.s sp => .ok (Value.s (sp ++ "/" ++ pyStr (pyGet r.config "Path")), shed₂)
             | _ => .error "TypeError") := by
  obtain ⟨rc, rrow⟩ := r
  have hrw : rrow = some pr := hpr
  subst hrw
  rfl

theorem Resource.path_eq_none (db : DB) (fuel : Nat) (r : Resource)
    (shed? : Option ResourceShed) (hpr : r.parent_row = none) :
    Resource.path db (fuel + 1) r shed? = .ok (pyGet r.config "Path", shed?) := by
  obtain ⟨rc, rrow⟩ := r
  have hrw : rrow = none := hpr
  subst hrw
  rfl

/-- C6 counterexample: a resource whose ancestor is unresolved (its Parent
"B" matches no persisted row) reads its path as its own Path component
"asdf", not as the null "unknown" value the claim requires. -/
theorem resource_path_unresolved_cex :
    path_of_config resLoneDB 9 resLoneConfig = .ok (Value.s "asdf", none) ∧
    Value.s "asdf" ≠ Value.null := by
  constructor
  · rfl
  · intro h
    cases h

/-- C6 (amended): when a parent row is attached, the path property is the
parent's full path, a slash, and the resource's own Path component, with a
null parent path or own component propagating as null rather than raising;
when no parent row was resolved the path is the resource's own Path
component; on the concrete chain A (X:) before B (GIS) before C (asdf),
C's path is X:/GIS/asdf, reassigning C's path to qwer yields X:/GIS/qwer,
and A's and B's paths stay X: and X:/GIS. -/
theorem resource_path_spec :
    (∀ (db : DB) (fuel : Nat) (r : Resource) (shed? : Option ResourceShed)
       (pr : Row) (par : Resource) (shed₁ : Option ResourceShed)
       (pp : Value) (shed₂ : Option ResourceShed),
      r.parent_row = some pr →
      Resource.resolve_parent db shed? pr = .ok (par, shed₁) →
      Resource.path db fuel par shed₁ = .ok (pp, shed₂) →
      ((pp = Value.null ∨ pyGet r.config "Path" = Value.null →
          Resource.path db (fuel + 1) r shed? = .ok (Value.null, shed₂)) ∧
       (∀ sp, pp = Value.s sp → pyGet r.config "Path" ≠ Value.null →
          Resource.path db (fuel + 1) r shed? =
            .ok (Value.s (sp ++ "/" ++ pyStr (pyGet r.config "Path")), shed₂)))) ∧
    (∀ (db : DB) (fuel : Nat) (r : Resource) (shed? : Option ResourceShed),
      r.parent_row = none →
      Resource.path db (fuel + 1) r shed? = .ok (pyGet r.config "Path", shed?)) ∧
    path_by_id resChainDB 9 (Value.s "C") = .ok (Value.s "X:/GIS/asdf", none) ∧
    path_by_id_after_set resChainDB 9 (Value.s "C") (Value.s "qwer") =
      .ok (Value.s "X:/GIS/qwer", none) ∧
    path_by_id resChainDB 9 (Value.s "A") = .ok (Value.s "X:", none) ∧
    path_by_id resChainDB 9 (Value.s "B") = .ok (Value.s "X:/GIS", none) := by
  refine ⟨?_, ?_, by rfl, by rfl, by rfl, by rfl⟩
  · intro db fuel r shed? pr par shed₁ pp shed₂ hpr hres hpath
    have e1 : Resource.path db (fuel + 1) r shed? =
        (match Resource.path db fuel par shed₁ with
         | .error e => .error e
         | .ok (pp, shed₂) =>
           if (pp == Value.null || pyGet r.config "Path" == Value.null) then
             .ok (Value.null, shed₂)
           else
             match pp with
             | Value.s sp => .ok (Value.s (sp ++ "/" ++ pyStr (pyGet r.config "Path")), shed₂)
             | _ => .error "TypeError") := by
      rw [Resource.path_eq_some db fuel r shed? pr hpr, hres]
    have e2 : Resource.path db (fuel + 1) r shed? =
        (if (pp == Value.null || pyGet r.config "Path" == Value.null) then
           (.ok (Value.null, shed₂) : Except String (Value × Option ResourceShed))
         else
           match pp with
           | Value.s sp => .ok (Value.s (sp ++ "/" ++ pyStr (pyGet r.config "Path")), shed₂)
           | _ => .error "TypeError") := by
      rw [e1]
      simp only [hpath]
      cases pp <;> split <;> rfl
    constructor
    · intro hnull
      rw [e2]
      rcases hnull with h | h
      · subst h
        rfl
      · rw [h]
        simp
    · intro sp hsp hown
      subst hsp
      rw [e2]
      have h1 : (Value.s sp == Value.null) = false := by rfl
      have h2 : (pyGet r.config "Path" == Value.null) = false :=
        beq_eq_false_iff_ne.mpr hown
      rw [h1, h2]
      rfl
  · intro db fuel r shed? hpr
    exact Resource.path_eq_none db fuel r shed? hpr

theorem resource_path_spec_witness :
    Resource.path resChainDB 9 (Resource.mk resChainRowC (some resChainRowB)) none =
      .ok (Value.s "X:/GIS/asdf", none) ∧
    Resource.path resChainDB 9 (Resource.mk resChainRowA none) none =
      .ok (Value.s "X:", none) := by
  constructor
  · exact (resource_path_spec.1 resChainDB 8
      (Resource.mk resChainRowC (some resChainRowB)) none resChainRowB
      (Resource.mk resChainRowB (some resChainRowA)) none (Value.s "X:/GIS") none
      rfl rfl rfl).2 "X:/GIS" rfl (by decide)
  · exact resource_path_spec.2.1 resChainDB 8 (Resource.mk resChainRowA none) none rfl

theorem blank_merge (cols : List String) (config : Row) :
    (cols.map (fun c => (c, Value.null))).map
      (fun kv => (kv.1, get_case_insensitive config kv.1 kv.2)) =
    cols.map (fun c => (c, get_case_insensitive config c Value.null)) := by
  rw [List.map_map]
  rfl

theorem shedGet_hit (db : DB) (shed : ResourceShed) (name : Value) (r₀ : Resource)
    (hc : alGet shed name = some r₀) :
    ResourceShed.get db shed name = .ok (r₀, shed) := by
  unfold ResourceShed.get
  rw [hc]

theorem shedGet_miss (db : DB) (shed : ResourceShed) (name : Value) (r₁ : Resource)
    (hc : alGet shed name = none)
    (hcfg : Resource.configure db [("Name", name)] Value.null = .ok r₁) :
    ResourceShed.get db shed name = .ok (r₁, shed ++ [(name, r₁)]) := by
  unfold ResourceShed.get
  rw [hc, hcfg]

theorem shedGet_alGet (db : DB) (shed : ResourceShed) (name : Value) (r : Resource)
    (shed' : ResourceShed) (h : ResourceShed.get db shed name = .ok (r, shed')) :
    alGet shed' name = some r := by
  rcases hc : alGet shed name with _ | r₀
  · rcases hcfg : Resource.configure db [("Name", name)] Value.null with e | r₁
    · have hge : ResourceShed.get db shed name = .error e := by
        unfold ResourceShed.get
        rw [hc, hcfg]
      rw [hge] at h
      simp at h
    · rw [shedGet_miss db shed name r₁ hc hcfg] at h
      have hpair := Except.ok.inj h
      have h1 : r₁ = r := congrArg Prod.fst hpair
      have h2 : shed ++ [(name, r₁)] = shed' := congrArg Prod.snd hpair
      rw [← h2, alGet_append shed [(name, r₁)] name hc, alGet_cons]
      simp [h1]
  · rw [shedGet_hit db shed name r₀ hc] at h
    have hpair := Except.ok.inj h
    have h1 : r₀ = r := congrArg Prod.fst hpair
    have h2 : shed = shed' := congrArg Prod.snd hpair
    rw [← h2, hc, h1]

theorem alGet_setPath (shed : ResourceShed) (name v : Value) :
    alGet (ResourceShed.setPath shed name v) name =
      (alGet shed name).map (fun r => Resource.set_path r v) := by
  unfold ResourceShed.setPath
  induction shed with
  | nil => rfl
  | cons kv rest ih =>
    obtain ⟨k1, r1⟩ := kv
    by_cases h : k1 == name
    · have hk : k1 = name := eq_of_beq h
      subst hk
      simp [List.map_cons, alGet_cons]
    · simp only [List.map_cons, alGet_cons, h, if_neg, if_false, Bool.false_eq_true,
        ite_false, ih]

theorem init_parent_of_falsy (db : DB) (config : Row)
    (hp : pyTruthy (pyGet config "Parent") = false) :
    Resource.init_parent db config = .ok (Resource.mk config none) := by
  unfold Resource.init_parent
  simp only [hp]
  simp

theorem init_parent_eq_truthy (db : DB) (config : Row)
    (hp : pyTruthy (pyGet config "Parent") = true) :
    Resource.init_parent db config =
      (match ClothoDB.get_row db "Resources" "ResourceID" (pyGet config "Parent") with
       | .error e => .error e
       | .ok pr1 =>
         match (match pr1 with
                | some r => (Except.ok (some r) : Except String (Option Row))
                | none =>
                  ClothoDB.get_row_insensitive db "Resources" "Name"
                    (pyGet config "Parent")) with
         | .error e => .error e
         | .ok none => .ok (Resource.mk config none)
         | .ok (some pr) =>
           .ok (Resource.mk (rowSet config "Parent" (pyGet pr "ResourceID")) (some pr))) := by
  unfold Resource.init_parent
  simp only [hp]
  simp

theorem init_parent_ok (db : DB) (t : Table)
    (ht : dbGetTable db "Resources" = some t)
    (hName : ∀ v, (t.rows.filter (fun r => cellEqCI r "Name" v)).length ≤ 1)
    (hRID : ∀ v, (t.rows.filter (fun r => cellEq r "ResourceID" v)).length ≤ 1)
    (config : Row) : ∃ r, Resource.init_parent db config = .ok r := by
  rcases hp : pyTruthy (pyGet config "Parent") with _ | _
  · exact ⟨Resource.mk config none, init_parent_of_falsy db config hp⟩
  · rw [init_parent_eq_truthy db config hp]
    rcases hh : (t.rows.filter
        (fun r => cellEq r "ResourceID" (pyGet config "Parent"))).head? with _ | pr
    · have hgr : ClothoDB.get_row db "Resources" "ResourceID" (pyGet config "Parent") =
          .ok none := by
        rw [get_row_le_one db "Resources" "ResourceID" _ t ht (hRID _), hh]
      rw [hgr]
      rcases hh2 : (t.rows.filter
          (fun r => cellEqCI r "Name" (pyGet config "Parent"))).head? with _ | pr2
      · have hgr2 : ClothoDB.get_row_insensitive db "Resources" "Name"
            (pyGet config "Parent") = .ok none := by
          rw [get_row_insensitive_le_one db "Resources" "Name" _ t ht (hName _), hh2]
        rw [hgr2]
        exact ⟨_, rfl⟩
      · have hgr2 : ClothoDB.get_row_insensitive db "Resources" "Name"
            (pyGet config "Parent") = .ok (some pr2) := by
          rw [get_row_insensitive_le_one db "Resources" "Name" _ t ht (hName _), hh2]
        rw [hgr2]
        exact ⟨_, rfl⟩
    · have hgr : ClothoDB.get_row db "Resources" "ResourceID" (pyGet config "Parent") =
          .ok (some pr) := by
        rw [get_row_le_one db "Resources" "ResourceID" _ t ht (hRID _), hh]
      rw [hgr]
      exact ⟨_, rfl⟩

/-- The record produced for a name-only config when no persisted row matches:
the blank row over the table's columns merged with the Name value. -/
def blankNameConfig (cols : List String) (name : Value) : Row :=
  (cols.map (fun c => (c, Value.null))).map
    (fun kv => (kv.1, get_case_insensitive [("Name", name)] kv.1 kv.2))

theorem get_columns_resources (db : DB) (t : Table)
    (ht : dbGetTable db "Resources" = some t) :
    ClothoDB.get_columns db "Resources" = .ok t.cols := by
  unfold ClothoDB.get_columns
  rw [ht]

theorem fill_config_row_by_rid (db : DB) (name : Value) :
    fill_config_row db "Resources" "ResourceID" [("Name", name)] Value.null none =
      .ok none := rfl

theorem fill_config_by_rid (db : DB) (t : Table) (name : Value)
    (ht : dbGetTable db "Resources" = some t) :
    fill_config db "Resources" "ResourceID" [("Name", name)] Value.null none =
      .ok (blankNameConfig t.cols name) := by
  unfold fill_config
  rw [fill_config_row_by_rid, get_columns_resources db t ht]
  rfl

theorem blankNameConfig_get_null (cols : List String) (name : Value) (k : String)
    (hk : get_case_insensitive [("Name", name)] k Value.null = Value.null) :
    pyGet (blankNameConfig cols name) k = Value.null := by
  unfold blankNameConfig
  rw [blank_merge]
  unfold pyGet
  rw [alGet_map_of_fn (fun c => get_case_insensitive [("Name", name)] c Value.null) cols k]
  rcases hcont : cols.contains k with _ | _
  · rfl
  · simp [hk]

theorem configure_eq_fallback (db : DB) (t : Table) (name : Value)
    (ht : dbGetTable db "Resources" = some t) :
    Resource.configure db [("Name", name)] Value.null =
      (match fill_config db "Resources" "Name" [("Name", name)] Value.null none with
       | .error e => .error e
       | .ok filled2 => Resource.init_parent db filled2) := by
  unfold Resource.configure
  rw [fill_config_by_rid db t name ht]
  have hfalse : pyTruthy (pyGet (blankNameConfig t.cols name) "ResourceID") = false := by
    rw [blankNameConfig_get_null t.cols name "ResourceID" rfl]
    rfl
  simp only [hfalse]
  rfl

theorem fill_config_row_by_name_null (db : DB) :
    fill_config_row db "Resources" "Name" [("Name", Value.null)] Value.null none =
      .ok none := rfl

theorem fill_config_row_by_name (db : DB) (name : Value)
    (hn : (name == Value.null) = false) :
    fill_config_row db "Resources" "Name" [("Name", name)] Value.null none =
      (match ClothoDB.get_row_insensitive db "Resources" "Name" name with
       | .error e => .error e
       | .ok (some r) => .ok (some r)
       | .ok none => .ok none) := by
  have l4 : fill_config_row db "Resources" "Name" [("Name", name)] Value.null none =
      (match (if (name == Value.null) then (.ok none : Except String (Option Row))
              else ClothoDB.get_row_insensitive db "Resources" "Name" name) with
       | .error e => .error e
       | .ok (some r) => .ok (some r)
       | .ok none => .ok none) := rfl
  rw [l4, hn]
  rfl

theorem fill_config_by_name_blank (db : DB) (t : Table) (name : Value)
    (ht : dbGetTable db "Resources" = some t)
    (hrow : fill_config_row db "Resources" "Name" [("Name", name)] Value.null none =
      .ok none) :
    fill_config db "Resources" "Name" [("Name", name)] Value.null none =
      .ok (blankNameConfig t.cols name) := by
  unfold fill_config
  rw [hrow, get_columns_resources db t ht]
  rfl

theorem fill_config_by_name_row (db : DB) (name : Value) (r : Row)
    (hrow : fill_config_row db "Resources" "Name" [("Name", name)] Value.null none =
      .ok (some r)) :
    fill_config db "Resources" "Name" [("Name", name)] Value.null none =
      .ok (r.map (fun kv => (kv.1, get_case_insensitive [("Name", name)] kv.1 kv.2))) := by
  unfold fill_config
  rw [hrow]

/-- A store whose Resources table holds two rows with the same Name "R". -/
def resDupDB : DB :=
  [("Resources", Table.mk ["ResourceID", "Name", "Path", "Parent"]
    [[("ResourceID", Value.s "r1"), ("Name", Value.s "R"),
      ("Path", Value.null), ("Parent", Value.null)],
     [("ResourceID", Value.s "r2"), ("Name", Value.s "R"),
      ("Path", Value.null), ("Parent", Value.null)]])]

/-- C9 counterexample: shed.get can raise.  With two persisted Resources rows
both named "R", shed.get("R") propagates the ambiguous-row error from
get_row_insensitive instead of returning a Resource. -/
theorem resource_shed_get_raises_cex :
    ResourceShed.get resDupDB [] (Value.s "R") =
      .error "Multiple rows in Resources for Name" := by rfl

/-- C9 (amended): provided the Resources table exists and its rows are
unambiguous (at most one row per case-folded Name and per ResourceID),
shed.get never raises; on a miss it constructs a Resource whose configuration
carries the requested Name and null for every other column, caches it under
that name, and a subsequent get returns the identical cached instance; a
path mutation through one holder is seen by every later get of that name. -/
theorem resource_shed_get_spec (db : DB) (t : Table)
    (ht : dbGetTable db "Resources" = some t)
    (hName : ∀ v, (t.rows.filter (fun r => cellEqCI r "Name" v)).length ≤ 1)
    (hRID : ∀ v, (t.rows.filter (fun r => cellEq r "ResourceID" v)).length ≤ 1) :
    (∀ shed name, ∃ r shed', ResourceShed.get db shed name = .ok (r, shed')) ∧
    (∀ shed name, alGet shed name = none →
      t.rows.filter (fun r => cellEqCI r "Name" name) = [] →
      ∃ r, ResourceShed.get db shed name = .ok (r, shed ++ [(name, r)]) ∧
        r.config = t.cols.map
          (fun c => (c, if pyLower "Name" == pyLower c then name else Value.null)) ∧
        r.parent_row = none) ∧
    (∀ shed name r shed', ResourceShed.get db shed name = .ok (r, shed') →
      ResourceShed.get db shed' name = .ok (r, shed')) ∧
    (∀ shed name r shed' v, ResourceShed.get db shed name = .ok (r, shed') →
      ResourceShed.get db (ResourceShed.setPath shed' name v) name =
        .ok (Resource.set_path r v, ResourceShed.setPath shed' name v)) := by
  refine ⟨?_, ?_, ?_, ?_⟩
  · intro shed name
    rcases hc : alGet shed name with _ | r₀
    · have hcfg : ∃ r, Resource.configure db [("Name", name)] Value.null = .ok r := by
        rw [configure_eq_fallback db t name ht]
        by_cases hnull : name = Value.null
        · subst hnull
          rw [fill_config_by_name_blank db t Value.null ht
            (fill_config_row_by_name_null db)]
          obtain ⟨r, hr⟩ := init_parent_ok db t ht hName hRID (blankNameConfig t.cols Value.null)
          exact ⟨r, hr⟩
        · have hn : (name == Value.null) = false := beq_eq_false_iff_ne.mpr hnull
          rcases hh : (t.rows.filter (fun r => cellEqCI r "Name" name)).head? with _ | prow
          · have hci : ClothoDB.get_row_insensitive db "Resources" "Name" name =
                .ok none := by
              rw [get_row_insensitive_le_one db "Resources" "Name" name t ht
                (hName name), hh]
            have hrow : fill_config_row db "Resources" "Name" [("Name", name)]
                Value.null none = .ok none := by
              rw [fill_config_row_by_name db name hn, hci]
            rw [fill_config_by_name_blank db t name ht hrow]
            obtain ⟨r, hr⟩ := init_parent_ok db t ht hName hRID (blankNameConfig t.cols name)
            exact ⟨r, hr⟩
          · have hci : ClothoDB.get_row_insensitive db "Resources" "Name" name =
                .ok (some prow) := by
              rw [get_row_insensitive_le_one db "Resources" "Name" name t ht
                (hName name), hh]
            have hrow : fill_config_row db "Resources" "Name" [("Name", name)]
                Value.null none = .ok (some prow) := by
              rw [fill_config_row_by_name db name hn, hci]
            rw [fill_config_by_name_row db name prow hrow]
            obtain ⟨r, hr⟩ := init_parent_ok db t ht hName hRID
              (prow.map (fun kv => (kv.1, get_case_insensitive [("Name", name)] kv.1 kv.2)))
            exact ⟨r, hr⟩
      obtain ⟨r, hr⟩ := hcfg
      exact ⟨r, shed ++ [(name, r)], shedGet_miss db shed name r hc hr⟩
    · exact ⟨r₀, shed, shedGet_hit db shed name r₀ hc⟩
  · intro shed name hcmiss hfilter
    have hfc : fill_config db "Resources" "Name" [("Name", name)] Value.null none =
        .ok (blankNameConfig t.cols name) := by
      by_cases hnull : name = Value.null
      · subst hnull
        exact fill_config_by_name_blank db t Value.null ht (fill_config_row_by_name_null db)
      · have hn : (name == Value.null) = false := beq_eq_false_iff_ne.mpr hnull
        have hci : ClothoDB.get_row_insensitive db "Resources" "Name" name = .ok none := by
          rw [get_row_insensitive_le_one db "Resources" "Name" name t ht (hName name),
            hfilter]
          rfl
        have hrow : fill_config_row db "Resources" "Name" [("Name", name)]
            Value.null none = .ok none := by
          rw [fill_config_row_by_name db name hn, hci]
        exact fill_config_by_name_blank db t name ht hrow
    have hparent : pyTruthy (pyGet (blankNameConfig t.cols name) "Parent") = false := by
      rw [blankNameConfig_get_null t.cols name "Parent" rfl]
      rfl
    have hip := init_parent_of_falsy db (blankNameConfig t.cols name) hparent
    have hcfg : Resource.configure db [("Name", name)] Value.null =
        .ok (Resource.mk (blankNameConfig t.cols name) none) := by
      rw [configure_eq_fallback db t name ht, hfc]
      exact hip
    refine ⟨Resource.mk (blankNameConfig t.cols name) none,
      shedGet_miss db shed name _ hcmiss hcfg, ?_, rfl⟩
    unfold blankNameConfig
    rw [blank_merge]
    simp only [get_ci_singleton]
  · intro shed name r shed' h
    exact shedGet_hit db shed' name r (shedGet_alGet db shed name r shed' h)
  · intro shed name r shed' v h
    have ha2 : alGet (ResourceShed.setPath shed' name v) name =
        some (Resource.set_path r v) := by
      rw [alGet_setPath, shedGet_alGet db shed name r shed' h]
      rfl
    exact shedGet_hit db (ResourceShed.setPath shed' name v) name
      (Resource.set_path r v) ha2

theorem resource_shed_get_spec_witness :
    (∃ r shed', ResourceShed.get resLoneDB [] (Value.s "R") = .ok (r, shed')) ∧
    (∃ r, ResourceShed.get resLoneDB [] (Value.s "R") =
        .ok (r, [] ++ [(Value.s "R", r)]) ∧
      r.config = ["ResourceID", "Name", "Path", "Parent"].map
        (fun c => (c, if pyLower "Name" == pyLower c then Value.s "R" else Value.null)) ∧
      r.parent_row = none) := by
  have h := resource_shed_get_spec resLoneDB
    (Table.mk ["ResourceID", "Name", "Path", "Parent"] []) rfl
    (fun v => by simp) (fun v => by simp)
  exact ⟨h.1 [] (Value.s "R"), h.2.1 [] (Value.s "R") rfl rfl⟩

/-- Python str.replace applied to single quotes: every single-quote character
becomes a double-quote character (tool.Tool.end_activity). -/
def replaceQuotes (s : String) : String :=
  String.mk (s.data.map (fun c => if c = Char.ofNat 39 then Char.ofNat 34 else c))

/-- The true/false case-folding applied to resolved parameter values in
tool.Tool.update_inputs and update_outputs. -/
def boolCast : Value → Value
  | Value.s st =>
    if pyLower st == "true" then Value.b true
    else if pyLower st == "false" then Value.b false
    else Value.s st
  | v => v

/-- Keyword arguments of a tool invocation (Python dict). -/
abbrev Kw : Type := List (Value × Value)

/-- What an invocation target returns: None, a single value, or a tuple. -/
inductive PyRet where
  | noneRet : PyRet
  | val : Value → PyRet
  | tup : List Value → PyRet
deriving DecidableEq, Repr

/-- None becomes the empty tuple, a non-tuple becomes a one-element tuple
(tool.Tool.run). -/
def pyRetToTuple : PyRet → List Value
  | .noneRet => []
  | .val v => [v]
  | .tup vs => vs

/-- The host environment resolving an invocation-target reference: None
models an import failure, otherwise a pure function from keyword arguments
to the call's outcome (a raised exception or a returned value). -/
abbrev Env : Type := String → Option (Kw → Except String PyRet)

/-- Python dict(pairs): inserted in order, later keys override earlier. -/
def dictOfPairs (pairs : List (Value × Value)) : List (Value × Value) :=
  pairs.foldl (fun acc kv => alSet acc kv.1 kv.2) []

/-- Output zipping of tool.Tool.run: dict(zip(self.outputs, output_tuple)). -/
def outputZip (outputs : List Value) (ret : PyRet) : Kw :=
  dictOfPairs (outputs.zip (pyRetToTuple ret))

/-- str.rsplit(".", 1): split at the last dot, None when there is no dot
(where Python raises unpacking the single part). -/
def lastDotSplit : List Char → Option (List Char × List Char)
  | [] => none
  | c :: cs =>
    match lastDotSplit cs with
    | some (l, r) => some (c :: l, r)
    | none => if c = Char.ofNat 46 then some ([], cs) else none

def pyRsplitDot (s : String) : Option (String × String) :=
  match lastDotSplit s.data with
  | some (l, r) => some (String.mk l, String.mk r)
  | none => none

/-- toolparam.ToolParam: its configuration row and the popped Name. -/
structure ToolParam where
  config : Row
  name : Value
deriving DecidableEq, Repr

def ToolParam.is_input (p : ToolParam) : Value := pyGet p.config "IsInput"

def ToolParam.feeder_tool_name (p : ToolParam) : Value := pyGet p.config "FeederToolName"

def ToolParam.feeder_param_name (p : ToolParam) : Value := pyGet p.config "FeederParamName"

/-- toolparam.ToolParam.configure: fill by ParamID; when that yields no
ParamID but a ToolID is known, look the row up by tool id and case-folded
name; then pop Name and default IsInput to True. -/
def ToolParam.configure (db : DB) (config : Row) (id : Value) :
    Except String ToolParam :=
  match fill_config db "ToolParams" "ParamID" config id none with
  | .error e => .error e
  | .ok c0 =>
    let second : Except String Row :=
      if pyTruthy (pyGet c0 "ParamID") = false ∧ pyTruthy (pyGet c0 "ToolID") = true then
        match dbGetTable db "ToolParams" with
        | none => .error "AttributeError reading ToolParams"
        | some bigT =>
          match pyGet c0 "Name" with
          | Value.s s =>
            let name_rows := bigT.rows.filter (fun r =>
              match alGet r "Name" with
              | some (Value.s s2) => pyLower s2 == pyLower s
              | _ => false)
            let rows2 := name_rows.filter (fun r =>
              alGet r "ToolID" == some (pyGet c0 "ToolID"))
            match rows2 with
            | [] => .ok c0
            | row :: _ =>
              .ok (row.foldl
                (fun acc kv => rowSet acc kv.1 (get_case_insensitive config kv.1 kv.2)) c0)
          | _ => .error "AttributeError lowering a non-string Name"
      else .ok c0
    match second with
    | .error e => .error e
    | .ok c1 =>
      let name := pyGet c1 "Name"
      let c2 := alRemove c1 "Name"
      let c3 := if pyGet c2 "IsInput" == Value.null then rowSet c2 "IsInput" (Value.b true)
                else c2
      .ok (ToolParam.mk c3 name)

/-- toolparam.ToolParam.commit: stamp the owning tool id, assign a fresh
ParamID when absent, and insert-or-replace the ToolParams row (with the
popped Name put back) keyed by ParamID. -/
def ToolParam.commit (w : World) (p : ToolParam) (tool_id : Value) : ToolParam × World :=
  let c1 := rowSet p.config "ToolID" tool_id
  let step :=
    if pyTruthy (pyGet c1 "ParamID") = false then
      let u := freshUuid w
      (rowSet c1 "ParamID" u.1, u.2)
    else (c1, w)
  let output_config := rowSet step.1 "Name" p.name
  (ToolParam.mk step.1 p.name,
   dbWrite step.2 (ClothoDB.set_row step.2.db "ToolParams" output_config "ParamID"))

/-- toolparam.ToolParam.get_resource: when the parameter is resource-flagged,
resolve its Value as a resource name through the shed (or standalone). -/
def ToolParam.get_resource (db : DB) (shed? : Option ResourceShed) (p : ToolParam) :
    Except String (Option (Resource × Option ResourceShed)) :=
  if pyTruthy (pyGet p.config "IsResource") = false then .ok none
  else
    match shed? with
    | some shed =>
      match ResourceShed.get db shed (pyGet p.config "Value") with
      | .error e => .error e
      | .ok (r, shed') => .ok (some (r, some shed'))
    | none =>
      match Resource.configure db [("Name", pyGet p.config "Value")] Value.null with
      | .error e => .error e
      | .ok r => .ok (some (r, none))

/-- The value getter of toolparam.ToolParam: a resource parameter reads the
resource's path, any other parameter reads its literal Value field. -/
def ToolParam.value (db : DB) (fuel : Nat) (p : ToolParam) (shed? : Option ResourceShed) :
    Except String (Value × Option ResourceShed) :=
  match ToolParam.get_resource db shed? p with
  | .error e => .error e
  | .ok (some (r, shed₁)) => Resource.path db fuel r shed₁
  | .ok none => .ok (pyGet p.config "Value", shed?)

/-- The value setter of toolparam.ToolParam: a resource parameter re-points
the resource's path (through the shed when one is attached, a discarded
temporary otherwise), any other parameter overwrites its Value field. -/
def ToolParam.set_value (db : DB) (p : ToolParam) (shed? : Option ResourceShed) (v : Value) :
    Except String (ToolParam × Option ResourceShed) :=
  match ToolParam.get_resource db shed? p with
  | .error e => .error e
  | .ok (some (_, shed₁)) =>
    match shed₁ with
    | some shed => .ok (p, some (ResourceShed.setPath shed (pyGet p.config "Value") v))
    | none => .ok (p, none)
  | .ok none => .ok (ToolParam.mk (rowSet p.config "Value" v) p.name, shed?)

/-- toolparam.ToolParam.record_io: resolve the owning tool id (raising when
none is known), commit the parameter first when it has no ParamID, then
write one ActivityIO row. -/
def ToolParam.record_io (w : World) (p : ToolParam) (activity_id : Value)
    (value : Value) (tool_id : Value) : Except String (ToolParam × World) :=
  let tool_id := if pyTruthy tool_id then tool_id else pyGet p.config "ToolID"
  if tool_id == Value.null then .error ("No tool ID set for param " ++ pyStr p.name ++ ".")
  else
    let step :=
      if pyTruthy (pyGet p.config "ParamID") = false then ToolParam.commit w p tool_id
      else (p, w)
    let p1 := step.1
    let u := freshUuid step.2
    .ok (p1, dbWrite u.2 (ClothoDB.set_row u.2.db "ActivityIO"
      [("IOID", u.1),
       ("ActivityID", activity_id),
       ("ParamID", pyGet p1.config "ParamID"),
       ("ParamName", p1.name),
       ("Value", value),
       ("IsResource", pyGetD p1.config "IsResource" (Value.b false)),
       ("IsInput", pyGet p1.config "IsInput"),
       ("IsRead", pyGet p1.config "IsRead"),
       ("IsWrite", pyGet p1.config "IsWrite")]
      "IOID"))

/-- tool.Tool: resolved config, parameters by name, predecessors as
(Name, ToolID) in declaration order, declared output names, and the
start-time set by start_activity. -/
structure Tool where
  config : Row
  params : List (Value × ToolParam)
  predecessors : List (Value × Value)
  outputs : List Value
  start_time : Option Nat
deriving DecidableEq, Repr

def Tool.id (T : Tool) : Value := pyGet T.config "ToolID"

def Tool.name (T : Tool) : Value := pyGet T.config "Name"

def Tool.path (T : Tool) : Value := pyGet T.config "Path"

/-- ClothoDB.get with the query string built as: "col" == 'str(idv)'.
None when the table cannot be read. -/
def dbGetFilteredById (db : DB) (table_name col : String) (idv : Value) :
    Option (List Row) :=
  match dbGetTable db table_name with
  | none => none
  | some t => some (t.rows.filter (fun r => alGet r col == some (Value.s (pyStr idv))))

/-- Comparison used to sort ToolOutputs rows by OutputOrder. -/
def valueLe : Value → Value → Bool
  | Value.i a, Value.i b => a ≤ b
  | _, _ => true

def insertByOrder (r : Row) : List Row → List Row
  | [] => [r]
  | x :: xs =>
    if valueLe (pyGet x "OutputOrder") (pyGet r "OutputOrder") then
      x :: insertByOrder r xs
    else r :: x :: xs

/-- output_rows.sort_values("OutputOrder"): a stable ascending sort. -/
def sortByOutputOrder (rows : List Row) : List Row :=
  rows.foldl (fun acc r => insertByOrder r acc) []

/-- tool.Tool.init_predecessors for a tool constructed from an identifier
alone (config None, as done by run_predecessors): read the ToolPredecessors
rows and resolve each PredecessorID to a Tools row, raising when one is
missing. -/
def Tool.init_predecessors_by_id (db : DB) (cfg : Row) :
    Except String (List (Value × Value)) :=
  if pyTruthy (pyGet cfg "ToolID") = false then .ok []
  else
    match dbGetFilteredById db "ToolPredecessors" "ToolID" (pyGet cfg "ToolID") with
    | none => .error "AttributeError reading ToolPredecessors"
    | some pred_rows => go pred_rows []
where
  go : List Row → List (Value × Value) → Except String (List (Value × Value))
    | [], acc => .ok acc
    | row :: rest, acc =>
      let pid := pyGet row "PredecessorID"
      if pyTruthy pid = false then go rest acc
      else
        match ClothoDB.get_row db "Tools" "ToolID" pid with
        | .error e => .error e
        | .ok none => .error ("Predecessor tool " ++ pyStr pid ++ " not found.")
        | .ok (some tool_row) => go rest (acc ++ [(pyGet tool_row "Name", pid)])

/-- The ToolOutputs part of tool.Tool.configure for config None: database
output names in OutputOrder, deduplicated in order. -/
def Tool.init_outputs_by_id (db : DB) (cfg : Row) : Except String (List Value) :=
  match dbGetFilteredById db "ToolOutputs" "ToolID" (pyGet cfg "ToolID") with
  | none => .error "AttributeError reading ToolOutputs"
  | some output_rows =>
    .ok ((sortByOutputOrder output_rows).foldl
      (fun acc r => if acc.contains (pyGet r "Name") then acc else acc ++ [pyGet r "Name"])
      [])

/-- tool.Tool.init_params for config None: load every ToolParams row of this
tool, keyed by parameter name. -/
def Tool.init_params_by_id (db : DB) (cfg : Row) :
    Except String (List (Value × ToolParam)) :=
  if pyTruthy (pyGet cfg "ToolID") = false then .ok []
  else
    match dbGetFilteredById db "ToolParams" "ToolID" (pyGet cfg "ToolID") with
    | none => .error "AttributeError reading ToolParams"
    | some param_rows => go param_rows []
where
  go : List Row → List (Value × ToolParam) → Except String (List (Value × ToolParam))
    | [], acc => .ok acc
    | row :: rest, acc =>
      match ToolParam.configure db [] (pyGet row "ParamID") with
      | .error e => .error e
      | .ok p => go rest (alSet acc p.name p)

/-- Tool(db, id=...) as invoked by run_predecessors: tool.Tool.configure with
config None. -/
def Tool.configure_by_id (db : DB) (id : Value) : Except String Tool :=
  match fill_config db "Tools" "ToolID" [] id (some "Name") with
  | .error e => .error e
  | .ok cfg =>
    match Tool.init_predecessors_by_id db cfg with
    | .error e => .error e
    | .ok preds =>
      match Tool.init_outputs_by_id db cfg with
      | .error e => .error e
      | .ok outputs =>
        match Tool.init_params_by_id db cfg with
        | .error e => .error e
        | .ok params => .ok (Tool.mk cfg params preds outputs none)

/-- The parameter-committing loop of tool.Tool.commit. -/
def Tool.commit_params (w : World) (params : List (Value × ToolParam)) (tid : Value) :
    List (Value × ToolParam) × World :=
  params.foldl
    (fun acc kv =>
      let r := ToolParam.commit acc.2 kv.2 tid
      (acc.1 ++ [(kv.1, r.1)], r.2))
    (([], w) : List (Value × ToolParam) × World)

/-- The predecessor-committing part of tool.Tool.commit: read the persisted
predecessor links and insert the missing ones. -/
def Tool.commit_preds (w : World) (preds : List (Value × Value)) (tid : Value) :
    Except String World :=
  match dbGetFilteredById w.db "ToolPredecessors" "ToolID" tid with
  | none => .error "AttributeError reading ToolPredecessors"
  | some pred_rows =>
    let db_preds := pred_rows.map (fun r => pyGet r "PredecessorID")
    .ok (preds.foldl
      (fun wa kv =>
        if db_preds.contains kv.2 then wa
        else
          let u := freshUuid wa
          dbWrite u.2 (ClothoDB.set_row u.2.db "ToolPredecessors"
            [("RelationshipID", u.1), ("ToolID", tid), ("PredecessorID", kv.2)]
            "RelationshipID"))
      w)

/-- One output write of tool.Tool.commit: reuse the first persisted OutputID
for this name, else a fresh one, and insert-or-replace the ToolOutputs row
with its order. -/
def Tool.commit_output_step (output_rows : List Row) (tid : Value) (wa : World)
    (iv : Nat × Value) : World :=
  match (output_rows.filter (fun r => alGet r "Name" == some iv.2)).map
      (fun r => pyGet r "OutputID") with
  | id0 :: _ =>
    dbWrite wa (ClothoDB.set_row wa.db "ToolOutputs"
      [("OutputID", id0), ("ToolID", tid),
       ("OutputOrder", Value.i iv.1), ("Name", iv.2)]
      "OutputID")
  | [] =>
    dbWrite (freshUuid wa).2 (ClothoDB.set_row (freshUuid wa).2.db "ToolOutputs"
      [("OutputID", (freshUuid wa).1), ("ToolID", tid),
       ("OutputOrder", Value.i iv.1), ("Name", iv.2)]
      "OutputID")

/-- The output-committing part of tool.Tool.commit: read the persisted
outputs, then write each declared output with its order. -/
def Tool.commit_outputs (w : World) (outputs : List Value) (tid : Value) :
    Except String World :=
  match dbGetFilteredById w.db "ToolOutputs" "ToolID" tid with
  | none => .error "AttributeError reading ToolOutputs"
  | some output_rows =>
    .ok (outputs.enum.foldl (Tool.commit_output_step output_rows tid) w)

/-- tool.Tool.commit: assign a ToolID when absent, insert-or-replace the
Tools row, commit every parameter, add missing predecessor links, and
insert-or-replace every declared output with its order. -/
def Tool.commit (w : World) (T : Tool) : Except String (Tool × World) :=
  let step :=
    if pyTruthy (Tool.id T) = false then
      let u := freshUuid w
      (Tool.mk (rowSet T.config "ToolID" u.1) T.params T.predecessors T.outputs
        T.start_time, u.2)
    else (T, w)
  let T1 := step.1
  let w2 := dbWrite step.2 (ClothoDB.set_row step.2.db "Tools" T1.config "ToolID")
  let pc := Tool.commit_params w2 T1.params (Tool.id T1)
  match Tool.commit_preds pc.2 T1.predecessors (Tool.id T1) with
  | .error e => .error e
  | .ok w4 =>
    match Tool.commit_outputs w4 T1.outputs (Tool.id T1) with
    | .error e => .error e
    | .ok w5 =>
      .ok (Tool.mk T1.config pc.1 T1.predecessors T1.outputs T1.start_time, w5)

/-- tool.Tool.start_activity: remember the start time and insert the
Activity row. -/
def Tool.start_activity (w : World) (T : Tool) (activity_id : Value) : Tool × World :=
  let n := getNow w
  (Tool.mk T.config T.params T.predecessors T.outputs (some n.1),
   dbWrite n.2 (ClothoDB.set_row n.2.db "Activity"
    [("ActivityID", activity_id), ("ToolID", Tool.id T), ("ToolName", Tool.name T),
     ("ToolPath", Tool.path T), ("StartTime", Value.s (get_time_string n.1))]
    "ActivityID"))

/-- tool.Tool.end_activity: replace single quotes in the message with double
quotes, then update the Activity row with end time, duration, success flag
and message (null fields are skipped by the update). -/
def Tool.end_activity (w : World) (T : Tool) (activity_id : Value)
    (succeeded : Bool) (message : Value) : Except String (Tool × World) :=
  let msgE : Except String Value :=
    match message with
    | Value.null => .ok Value.null
    | Value.s s => .ok (Value.s (replaceQuotes s))
    | _ => .error "AttributeError replacing in a non-string message"
  match msgE with
  | .error e => .error e
  | .ok msg =>
    match T.start_time with
    | none => .error "TypeError subtracting from an unset start time"
    | some st =>
      let n := getNow w
      match ClothoDB.update n.2.db "Activity" "ActivityID" activity_id
        [("EndTime", Value.s (get_time_string n.1)),
         ("Duration", Value.s (durationString st n.1)),
         ("Succeeded", Value.b succeeded),
         ("Message", msg)] with
      | .error e => .error e
      | .ok db2 => .ok (T, dbWrite n.2 db2)

/-- tool.Tool.write_batches: a null batch value writes nothing; otherwise one
BatchActivity association row is written (our scalar model carries one batch
id per run). -/
def Tool.write_batches (w : World) (batch_ids : Value) (activity_id : Value) : World :=
  if batch_ids == Value.null then w
  else
    let u := freshUuid w
    dbWrite u.2 (ClothoDB.set_row u.2.db "BatchActivity"
      [("RelationshipID", u.1), ("BatchID", batch_ids), ("ActivityID", activity_id)]
      "RelationshipID")

/-- The diagnostic logged when a predecessor fails
(tool.Tool.run_predecessors). -/
def failMsg (tool_name pred_name : Value) : String :=
  "\"" ++ pyStr tool_name ++ "\" failed due to \"" ++ pyStr pred_name ++ "\" failure."

/-- One iteration of the input loop of tool.Tool.update_inputs, for the
parameter bound as name/p: skip non-inputs; pull a feeder value when a
feeder binding applies (missing feeder tool or feeder parameter raises);
resolve the value from the caller's kwargs or the parameter itself (a falsy
resolved candidate falls back to the parameter's own value); case-fold
true/false strings; store the value into kwargs and record it. -/
def Tool.update_inputs_step (fuel : Nat) (tool_name tool_id activity_id : Value)
    (pred_outputs : List (Value × Kw)) (default_pred_name : Option Value)
    (name : Value) (p : ToolParam) (kwargs : Kw) (w : World)
    (shed? : Option ResourceShed) :
    Except String (Kw × ToolParam × World × Option ResourceShed) :=
  if pyTruthy (ToolParam.is_input p) = false then .ok (kwargs, p, w, shed?)
  else
    let feeder_tool_name :=
      if pyTruthy (ToolParam.feeder_tool_name p) then ToolParam.feeder_tool_name p
      else default_pred_name.getD Value.null
    let pulled : Except String (ToolParam × Option ResourceShed) :=
      if pyTruthy feeder_tool_name = true ∧
          pyTruthy (ToolParam.feeder_param_name p) = true then
        match alGet pred_outputs feeder_tool_name with
        | none =>
          .error ("Feeder tool \"" ++ pyStr feeder_tool_name ++ "\" not found for tool \"" ++
            pyStr tool_name ++ ".\"")
        | some feeder_params =>
          match alGet feeder_params (ToolParam.feeder_param_name p) with
          | none =>
            .error ("Feeder parameter \"" ++ pyStr (ToolParam.feeder_param_name p) ++
              "\" not found for tool \"" ++ pyStr tool_name ++ ",\" feeder \"" ++
              pyStr feeder_tool_name ++ ".\"")
          | some fv => ToolParam.set_value w.db p shed? fv
      else .ok (p, shed?)
    match pulled with
    | .error e => .error e
    | .ok (p1, shed1) =>
      match ToolParam.value w.db fuel p1 shed1 with
      | .error e => .error e
      | .ok (pv1, shed2) =>
        let val0 := (alGet kwargs name).getD pv1
        match (if pyTruthy val0 then .ok (val0, shed2)
               else ToolParam.value w.db fuel p1 shed2) with
        | .error e => .error e
        | .ok (val1, shed3) =>
          let val2 := boolCast val1
          let kwargs1 := alSet kwargs name val2
          match ToolParam.record_io w p1 activity_id val2 tool_id with
          | .error e => .error e
          | .ok (p2, w2) => .ok (kwargs1, p2, w2, shed3)

/-- tool.Tool.update_inputs: the input loop over the tool's parameters in
order. -/
def Tool.update_inputs (fuel : Nat) (tool_name tool_id activity_id : Value)
    (pred_outputs : List (Value × Kw)) (default_pred_name : Option Value) :
    List (Value × ToolParam) → Kw → World → Option ResourceShed →
    List (Value × ToolParam) →
    Except String (Kw × List (Value × ToolParam) × World × Option ResourceShed)
  | [], kwargs, w, shed?, acc => .ok (kwargs, acc, w, shed?)
  | (name, p) :: rest, kwargs, w, shed?, acc =>
    match Tool.update_inputs_step fuel tool_name tool_id activity_id pred_outputs
      default_pred_name name p kwargs w shed? with
    | .error e => .error e
    | .ok (kwargs1, p2, w2, shed2) =>
      Tool.update_inputs fuel tool_name tool_id activity_id pred_outputs
        default_pred_name rest kwargs1 w2 shed2 (acc ++ [(name, p2)])

/-- One iteration of the output loop of tool.Tool.update_outputs: skip
inputs; when the output mapping holds this name, assign it to the parameter;
resolve the recorded value from kwargs or the parameter, case-fold
true/false strings, and record it. -/
def Tool.update_outputs_step (fuel : Nat) (tool_id activity_id : Value)
    (output_dict : Kw) (name : Value) (p : ToolParam) (kwargs : Kw) (w : World)
    (shed? : Option ResourceShed) :
    Except String (ToolParam × World × Option ResourceShed) :=
  if pyTruthy (ToolParam.is_input p) = true then .ok (p, w, shed?)
  else
    let assigned : Except String (ToolParam × Option ResourceShed) :=
      match alGet output_dict name with
      | some ov => ToolParam.set_value w.db p shed? ov
      | none => .ok (p, shed?)
    match assigned with
    | .error e => .error e
    | .ok (p1, shed1) =>
      match ToolParam.value w.db fuel p1 shed1 with
      | .error e => .error e
      | .ok (pv, shed2) =>
        let val0 := (alGet kwargs name).getD pv
        let val1 := boolCast val0
        match ToolParam.record_io w p1 activity_id val1 tool_id with
        | .error e => .error e
        | .ok (p2, w2) => .ok (p2, w2, shed2)

/-- tool.Tool.update_outputs: the output loop over the tool's parameters. -/
def Tool.update_outputs (fuel : Nat) (tool_id activity_id : Value)
    (output_dict : Kw) :
    List (Value × ToolParam) → Kw → World → Option ResourceShed →
    List (Value × ToolParam) →
    Except String (List (Value × ToolParam) × World × Option ResourceShed)
  | [], _, w, shed?, acc => .ok (acc, w, shed?)
  | (name, p) :: rest, kwargs, w, shed?, acc =>
    match Tool.update_outputs_step fuel tool_id activity_id output_dict name p
      kwargs w shed? with
    | .error e => .error e
    | .ok (p2, w2, shed2) =>
      Tool.update_outputs fuel tool_id activity_id output_dict rest kwargs w2 shed2
        (acc ++ [(name, p2)])

mutual

/-- tool.Tool.run: require a Path; run the predecessors (a failure signal
from them returns the failure signal at once); commit when the tool has no
identifier; make a fresh activity id; resolve the inputs; resolve and invoke
the target (recording the call); a raised exception ends the activity as
failed and returns the failure signal; otherwise zip the returned values
against the declared output names, write batch associations, end the
activity as succeeded, record the outputs, and return the output mapping.
Recursion over predecessors is fuel-bounded. -/
def Tool.run (env : Env) (fuel : Nat) (T : Tool) (kwargs : Kw) (w : World)
    (shed? : Option ResourceShed) :
    Except String (Option Kw × World × Option ResourceShed) :=
  match fuel with
  | 0 => .error "RecursionError"
  | fuel' + 1 =>
    if Tool.path T == Value.null then
      .error ("Path not found for tool \"" ++ pyStr (Tool.name T) ++ ".\"")
    else
      match Tool.run_predecessors env fuel' T kwargs w shed? with
      | .error e => .error e
      | .ok (none, _, w1, shed1) => .ok (none, w1, shed1)
      | .ok (some pred_outputs, default_pred_name, w1, shed1) =>
        match (if pyTruthy (Tool.id T) = false then Tool.commit w1 T
               else .ok (T, w1)) with
        | .error e => .error e
        | .ok (T1, w2) =>
          let u := freshUuid w2
          match Tool.update_inputs fuel' (Tool.name T1) (Tool.id T1) u.1 pred_outputs
            default_pred_name T1.params kwargs u.2 shed1 [] with
          | .error e => .error e
          | .ok (kwargs1, params1, w3, shed2) =>
            let T2 := Tool.mk T1.config params1 T1.predecessors T1.outputs T1.start_time
            match Tool.path T2 with
            | Value.s pstr =>
              match pyRsplitDot pstr with
              | none => .error "ValueError unpacking rsplit"
              | some _ =>
                match env pstr with
                | none => .error ("ImportError for " ++ pstr)
                | some func =>
                  let sa := Tool.start_activity w3 T2 u.1
                  let w5 := World.mk sa.2.db sa.2.log (sa.2.calls ++ [(pstr, kwargs1)])
                    sa.2.nextUuid sa.2.now
                  match func kwargs1 with
                  | .error e =>
                    let w6 := logAdd w5
                      ("Tool " ++ pyStr (Tool.name sa.1) ++ " failed. " ++ e)
                    match Tool.end_activity w6 sa.1 u.1 false (Value.s e) with
                    | .error e2 => .error e2
                    | .ok (_, w7) => .ok (none, w7, shed2)
                  | .ok ret =>
                    let output_dict := outputZip sa.1.outputs ret
                    let batch_ids := (alGet output_dict (Value.s "batch_ids")).getD
                      ((alGet output_dict (Value.s "batch_id")).getD Value.null)
                    let w6 := Tool.write_batches w5 batch_ids u.1
                    match Tool.end_activity w6 sa.1 u.1 true
                      ((alGet output_dict (Value.s "message")).getD Value.null) with
                    | .error e => .error e
                    | .ok (T4, w7) =>
                      match Tool.update_outputs fuel' (Tool.id T4) u.1 output_dict
                        T4.params kwargs1 w7 shed2 [] with
                      | .error e => .error e
                      | .ok (_, w8, shed3) => .ok (some output_dict, w8, shed3)
            | _ => .error "AttributeError rsplit on a non-string Path"
termination_by (fuel, 0)

/-- tool.Tool.run_predecessors: run every predecessor in declaration order,
stopping at the first failure with a diagnostic naming it; with exactly one
predecessor its name becomes the default feeder. -/
def Tool.run_predecessors (env : Env) (fuel : Nat) (T : Tool) (kwargs : Kw)
    (w : World) (shed? : Option ResourceShed) :
    Except String (Option (List (Value × Kw)) × Option Value × World ×
      Option ResourceShed) :=
  match Tool.run_preds_go env fuel T T.predecessors kwargs w shed? [] none with
  | .error e => .error e
  | .ok (none, _, w1, shed1) => .ok (none, none, w1, shed1)
  | .ok (some outs, last, w1, shed1) =>
    .ok (some outs, (if T.predecessors.length == 1 then last else none), w1, shed1)
termination_by (fuel, T.predecessors.length + 1)

/-- The predecessor loop of tool.Tool.run_predecessors: each predecessor is
rebuilt from its identifier and run; a failure logs the diagnostic and
aborts; a success stores its outputs under the predecessor's name. -/
def Tool.run_preds_go (env : Env) (fuel : Nat) (T : Tool)
    (preds : List (Value × Value)) (kwargs : Kw) (w : World)
    (shed? : Option ResourceShed) (outs : List (Value × Kw)) (last : Option Value) :
    Except String (Option (List (Value × Kw)) × Option Value × World ×
      Option ResourceShed) :=
  match preds with
  | [] => .ok (some outs, last, w, shed?)
  | (_, pid) :: rest =>
    match Tool.configure_by_id w.db pid with
    | .error e => .error e
    | .ok P =>
      match Tool.run env fuel P kwargs w shed? with
      | .error e => .error e
      | .ok (none, w1, shed1) =>
        .ok (none, none, logAdd w1 (failMsg (Tool.name T) (Tool.name P)), shed1)
      | .ok (some result, w1, shed1) =>
        Tool.run_preds_go env fuel T rest kwargs w1 shed1
          (alSet outs (Tool.name P) result) (some (Tool.name P))
termination_by (fuel, preds.length)

end

theorem alGet_none_of_not_hasKey {α β : Type} [BEq α] (l : List (α × β)) (k : α)
    (h : alHasKey l k = false) : alGet l k = none := by
  induction l with
  | nil => rfl
  | cons kv rest ih =>
    simp only [alHasKey, List.any_cons, Bool.or_eq_false_iff] at h
    have h2 : alGet rest k = none := ih h.2
    rw [alGet_cons, h.1, h2]
    simp

theorem alGet_append_some {α β : Type} [BEq α] (l₁ l₂ : List (α × β)) (k : α) (x : β)
    (h : alGet l₁ k = some x) : alGet (l₁ ++ l₂) k = some x := by
  induction l₁ with
  | nil => simp [alGet] at h
  | cons kv rest ih =>
    rw [alGet_cons] at h
    rw [List.cons_append, alGet_cons]
    by_cases hk : kv.1 == k
    · rw [if_pos hk] at h ⊢
      exact h
    · rw [if_neg hk] at h ⊢
      exact ih h

theorem alGet_map_set {α β : Type} [BEq α] [LawfulBEq α] (l : List (α × β)) (k : α)
    (v : β) (h : alHasKey l k = true) :
    alGet (l.map (fun kv => if kv.1 == k then (k, v) else kv)) k = some v := by
  induction l with
  | nil => simp [alHasKey] at h
  | cons kv rest ih =>
    simp only [alHasKey, List.any_cons] at h
    rw [List.map_cons]
    by_cases hk : kv.1 == k
    · rw [if_pos hk, alGet_cons]
      simp
    · rw [if_neg hk, alGet_cons, if_neg hk]
      apply ih
      simp only [hk, Bool.false_or] at h
      exact h

theorem alGet_alSet {α β : Type} [BEq α] [LawfulBEq α] (l : List (α × β)) (k : α)
    (v : β) : alGet (alSet l k v) k = some v := by
  unfold alSet
  by_cases h : alHasKey l k
  · rw [if_pos h]
    exact alGet_map_set l k v h
  · rw [if_neg h]
    have hf : alHasKey l k = false := by
      cases hh : alHasKey l k
      · rfl
      · exact absurd hh h
    rw [alGet_append l [(k, v)] k (alGet_none_of_not_hasKey l k hf), alGet_cons]
    simp

theorem alGet_map_set_ne {α β : Type} [BEq α] [LawfulBEq α] (l : List (α × β))
    (k k' : α) (v : β) (h : (k == k') = false) :
    alGet (l.map (fun kv => if kv.1 == k then (k, v) else kv)) k' = alGet l k' := by
  induction l with
  | nil => rfl
  | cons kv rest ih =>
    rw [List.map_cons]
    by_cases hk : kv.1 == k
    · have hkv : kv.1 = k := eq_of_beq hk
      rw [if_pos hk, alGet_cons, alGet_cons, hkv, h, ih]
      simp
    · rw [if_neg hk, alGet_cons, alGet_cons, ih]

theorem alGet_alSet_ne {α β : Type} [BEq α] [LawfulBEq α] (l : List (α × β))
    (k k' : α) (v : β) (h : (k == k') = false) :
    alGet (alSet l k v) k' = alGet l k' := by
  unfold alSet
  by_cases hh : alHasKey l k
  · rw [if_pos hh]
    exact alGet_map_set_ne l k k' v h
  · rw [if_neg hh]
    rcases hl : alGet l k' with _ | x
    · rw [alGet_append l [(k, v)] k' hl, alGet_cons]
      simp [h, alGet]
    · exact alGet_append_some l [(k, v)] k' x hl

theorem pyGet_rowSet_ne (r : Row) (k k' : String) (v : Value)
    (h : (k == k') = false) : pyGet (rowSet r k v) k' = pyGet r k' := by
  unfold pyGet rowSet
  rw [alGet_alSet_ne r k k' v h]

/-- The number of rows of a table whose id column holds the given value. -/
def countId (db : DB) (table_name id_col : String) (v : Value) : Nat :=
  match dbGetTable db table_name with
  | none => 0
  | some t => (t.rows.filter (fun r => pyGet r id_col == v)).length

theorem countId_congr (db₁ db₂ : DB) (tbl c : String) (v : Value)
    (h : dbGetTable db₁ tbl = dbGetTable db₂ tbl) :
    countId db₁ tbl c v = countId db₂ tbl c v := by
  unfold countId
  rw [h]

theorem dbGetTable_set_row_ne (db : DB) (tbl other : String) (row : Row)
    (idc : String) (h : (tbl == other) = false) :
    dbGetTable (ClothoDB.set_row db tbl row idc) other = dbGetTable db other := by
  exact alGet_alSet_ne db tbl other _ h

theorem filter_filter_not (idc : String) (V : Value) :
    ∀ l : List Row,
      ((l.filter (fun r => !(pyGet r idc == V))).filter
        (fun r => pyGet r idc == V)) = [] := by
  intro l
  induction l with
  | nil => rfl
  | cons r rest ih =>
    by_cases hc : (pyGet r idc == V) = true
    · simp [List.filter_cons, hc, ih]
    · have hc2 : (pyGet r idc == V) = false := by
        cases hcc : (pyGet r idc == V)
        · rfl
        · exact absurd hcc hc
      simp [List.filter_cons, hc2, ih]

theorem set_row_eq_none (db : DB) (tbl : String) (row : Row) (idc : String)
    (hdb : dbGetTable db tbl = none) :
    ClothoDB.set_row db tbl row idc = dbSetTable db tbl (Table.mk [] [row]) := by
  unfold ClothoDB.set_row
  rw [hdb]
  rfl

theorem set_row_eq_some (db : DB) (tbl : String) (row : Row) (idc : String)
    (t0 : Table) (hdb : dbGetTable db tbl = some t0) :
    ClothoDB.set_row db tbl row idc =
      dbSetTable db tbl (Table.mk t0.cols
        ((t0.rows.filter (fun r => !(pyGet r idc == pyGet row idc))) ++ [row])) := by
  unfold ClothoDB.set_row
  rw [hdb]

theorem set_row_count (db : DB) (tbl : String) (row : Row) (idc : String) :
    countId (ClothoDB.set_row db tbl row idc) tbl idc (pyGet row idc) = 1 := by
  have hset : ∀ t' : Table, dbGetTable (dbSetTable db tbl t') tbl = some t' :=
    fun t' => alGet_alSet db tbl t'
  rcases hdb : dbGetTable db tbl with _ | t0
  · rw [set_row_eq_none db tbl row idc hdb]
    unfold countId
    rw [hset]
    simp [List.filter_cons]
  · rw [set_row_eq_some db tbl row idc t0 hdb]
    unfold countId
    rw [hset]
    simp only [List.filter_append, List.length_append, filter_filter_not]
    simp [List.filter_cons]

theorem Resource.commit_of_rid (w : World) (r : Resource)
    (h : pyTruthy (pyGet r.config "ResourceID") = true) :
    Resource.commit w r =
      (r, dbWrite w (ClothoDB.set_row w.db "Resources" r.config "ResourceID")) := by
  unfold Resource.commit
  simp only [h]
  simp

theorem ToolParam.commit_of_pid (w : World) (p : ToolParam) (tid : Value)
    (h : pyTruthy (pyGet p.config "ParamID") = true) :
    ToolParam.commit w p tid =
      (ToolParam.mk (rowSet p.config "ToolID" tid) p.name,
       dbWrite w (ClothoDB.set_row w.db "ToolParams"
         (rowSet (rowSet p.config "ToolID" tid) "Name" p.name) "ParamID")) := by
  have h1 : pyGet (rowSet p.config "ToolID" tid) "ParamID" = pyGet p.config "ParamID" :=
    pyGet_rowSet_ne p.config "ToolID" "ParamID" tid (by rfl)
  unfold ToolParam.commit
  simp only [h1, h]
  simp

theorem ToolParam.commit_db_eq (w : World) (p : ToolParam) (tid : Value) :
    ∃ row', ((ToolParam.commit w p tid).2).db =
      ClothoDB.set_row w.db "ToolParams" row' "ParamID" := by
  by_cases hid : pyTruthy (pyGet (rowSet p.config "ToolID" tid) "ParamID") = false
  · refine ⟨rowSet (rowSet (rowSet p.config "ToolID" tid) "ParamID" (freshUuid w).1)
      "Name" p.name, ?_⟩
    unfold ToolParam.commit
    simp [hid]
    rfl
  · refine ⟨rowSet (rowSet p.config "ToolID" tid) "Name" p.name, ?_⟩
    unfold ToolParam.commit
    simp [hid]
    rfl

theorem Tool.commit_params_frame (params : List (Value × ToolParam)) (w : World)
    (tid : Value) (other : String) (h : ("ToolParams" == other) = false) :
    dbGetTable ((Tool.commit_params w params tid).2).db other =
      dbGetTable w.db other := by
  unfold Tool.commit_params
  suffices hgen : ∀ (ps : List (Value × ToolParam)) (acc : List (Value × ToolParam))
      (w0 : World),
      dbGetTable ((ps.foldl (fun acc kv =>
        let r := ToolParam.commit acc.2 kv.2 tid
        (acc.1 ++ [(kv.1, r.1)], r.2)) (acc, w0)).2).db other =
        dbGetTable w0.db other by
    exact hgen params [] w
  intro ps
  induction ps with
  | nil => intro acc w0; rfl
  | cons kv rest ih =>
    intro acc w0
    rw [List.foldl_cons]
    have h1 := ih (acc ++ [(kv.1, (ToolParam.commit w0 kv.2 tid).1)])
      ((ToolParam.commit w0 kv.2 tid).2)
    have h2 : dbGetTable ((ToolParam.commit w0 kv.2 tid).2).db other =
        dbGetTable w0.db other := by
      rcases ToolParam.commit_db_eq w0 kv.2 tid with ⟨row', hdb⟩
      rw [hdb]
      exact dbGetTable_set_row_ne w0.db "ToolParams" other row' "ParamID" h
    exact h1.trans h2

theorem Tool.commit_preds_frame (w : World) (preds : List (Value × Value))
    (tid : Value) (w' : World) (hok : Tool.commit_preds w preds tid = .ok w')
    (other : String) (h : ("ToolPredecessors" == other) = false) :
    dbGetTable w'.db other = dbGetTable w.db other := by
  unfold Tool.commit_preds at hok
  rcases hread : dbGetFilteredById w.db "ToolPredecessors" "ToolID" tid with _ | pred_rows
  · rw [hread] at hok
    cases hok
  · rw [hread] at hok
    have hw := (Except.ok.inj hok).symm
    subst hw
    suffices hgen : ∀ (ps : List (Value × Value)) (w0 : World),
        dbGetTable ((ps.foldl (fun wa kv =>
          if (pred_rows.map (fun r => pyGet r "PredecessorID")).contains kv.2 then wa
          else
            let u := freshUuid wa
            dbWrite u.2 (ClothoDB.set_row u.2.db "ToolPredecessors"
              [("RelationshipID", u.1), ("ToolID", tid), ("PredecessorID", kv.2)]
              "RelationshipID")) w0)).db other = dbGetTable w0.db other by
      exact hgen preds w
    intro ps
    induction ps with
    | nil => intro w0; rfl
    | cons kv rest ih =>
      intro w0
      rw [List.foldl_cons]
      refine (ih _).trans ?_
      by_cases hc : (pred_rows.map (fun r => pyGet r "PredecessorID")).contains kv.2
      · rw [if_pos hc]
      · rw [if_neg hc]
        exact dbGetTable_set_row_ne w0.db "ToolPredecessors" other _ "RelationshipID" h

theorem Tool.commit_output_step_frame (output_rows : List Row) (tid : Value)
    (wa : World) (iv : Nat × Value) (other : String)
    (h : ("ToolOutputs" == other) = false) :
    dbGetTable (Tool.commit_output_step output_rows tid wa iv).db other =
      dbGetTable wa.db other := by
  unfold Tool.commit_output_step
  rcases hids : (output_rows.filter (fun r => alGet r "Name" == some iv.2)).map
      (fun r => pyGet r "OutputID") with _ | ⟨id0, more⟩
  · exact dbGetTable_set_row_ne wa.db "ToolOutputs" other _ "OutputID" h
  · exact dbGetTable_set_row_ne wa.db "ToolOutputs" other _ "OutputID" h

theorem Tool.commit_outputs_frame (w : World) (outputs : List Value)
    (tid : Value) (w' : World) (hok : Tool.commit_outputs w outputs tid = .ok w')
    (other : String) (h : ("ToolOutputs" == other) = false) :
    dbGetTable w'.db other = dbGetTable w.db other := by
  unfold Tool.commit_outputs at hok
  rcases hread : dbGetFilteredById w.db "ToolOutputs" "ToolID" tid with _ | output_rows
  · rw [hread] at hok
    cases hok
  · rw [hread] at hok
    have hw := (Except.ok.inj hok).symm
    subst hw
    suffices hgen : ∀ (l : List (Nat × Value)) (w0 : World),
        dbGetTable ((l.foldl (Tool.commit_output_step output_rows tid) w0)).db other =
          dbGetTable w0.db other by
      exact hgen outputs.enum w
    intro l
    induction l with
    | nil => intro w0; rfl
    | cons iv rest ih =>
      intro w0
      rw [List.foldl_cons]
      exact (ih _).trans (Tool.commit_output_step_frame output_rows tid w0 iv other h)

theorem Tool.commit_of_tid (w : World) (T : Tool) (h : pyTruthy (Tool.id T) = true) :
    Tool.commit w T =
      (match Tool.commit_preds (Tool.commit_params
          (dbWrite w (ClothoDB.set_row w.db "Tools" T.config "ToolID"))
          T.params (Tool.id T)).2 T.predecessors (Tool.id T) with
       | .error e => .error e
       | .ok w4 =>
         match Tool.commit_outputs w4 T.outputs (Tool.id T) with
         | .error e => .error e
         | .ok w5 =>
           .ok (Tool.mk T.config (Tool.commit_params
             (dbWrite w (ClothoDB.set_row w.db "Tools" T.config "ToolID"))
             T.params (Tool.id T)).1 T.predecessors T.outputs T.start_time, w5)) := by
  unfold Tool.commit
  simp only [h]
  rfl

theorem Tool.commit_count (w : World) (T T' : Tool) (w' : World)
    (hid : pyTruthy (Tool.id T) = true)
    (hc : Tool.commit w T = .ok (T', w')) :
    countId w'.db "Tools" "ToolID" (Tool.id T) = 1 ∧ T'.config = T.config := by
  rw [Tool.commit_of_tid w T hid] at hc
  rcases hpreds : Tool.commit_preds (Tool.commit_params
      (dbWrite w (ClothoDB.set_row w.db "Tools" T.config "ToolID"))
      T.params (Tool.id T)).2 T.predecessors (Tool.id T) with e | w4
  · rw [hpreds] at hc
    cases hc
  · rw [hpreds] at hc
    have hc2 : (match Tool.commit_outputs w4 T.outputs (Tool.id T) with
        | .error e => (.error e : Except String (Tool × World))
        | .ok w5 =>
          .ok (Tool.mk T.config (Tool.commit_params
            (dbWrite w (ClothoDB.set_row w.db "Tools" T.config "ToolID"))
            T.params (Tool.id T)).1 T.predecessors T.outputs T.start_time, w5)) =
        .ok (T', w') := hc
    rcases houts : Tool.commit_outputs w4 T.outputs (Tool.id T) with e | w5
    · rw [houts] at hc2
      cases hc2
    · rw [houts] at hc2
      have hpair := Except.ok.inj hc2
      have hT : (Tool.mk T.config (Tool.commit_params
          (dbWrite w (ClothoDB.set_row w.db "Tools" T.config "ToolID"))
          T.params (Tool.id T)).1 T.predecessors T.outputs T.start_time) = T' :=
        congrArg Prod.fst hpair
      have hw : w5 = w' := congrArg Prod.snd hpair
      constructor
      · rw [← hw]
        have e1 := Tool.commit_outputs_frame w4 T.outputs (Tool.id T) w5 houts
          "Tools" (by rfl)
        have e2 := Tool.commit_preds_frame (Tool.commit_params
          (dbWrite w (ClothoDB.set_row w.db "Tools" T.config "ToolID"))
          T.params (Tool.id T)).2 T.predecessors (Tool.id T) w4 hpreds "Tools" (by rfl)
        have e3 := Tool.commit_params_frame T.params
          (dbWrite w (ClothoDB.set_row w.db "Tools" T.config "ToolID"))
          (Tool.id T) "Tools" (by rfl)
        have hcount := countId_congr _ _ "Tools" "ToolID" (Tool.id T)
          (e1.trans (e2.trans e3))
        rw [hcount]
        exact set_row_count w.db "Tools" T.config "ToolID"
      · rw [← hT]

/-- C8: committing an entity that already carries its identifier twice leaves
exactly one row with that identifier in its table, for Resource commits
(Resources keyed by ResourceID), ToolParam commits (ToolParams keyed by
ParamID) and Tool commits (Tools keyed by ToolID). -/
theorem commit_twice_unique :
    (∀ (w : World) (r : Resource), pyTruthy (pyGet r.config "ResourceID") = true →
      countId ((Resource.commit (Resource.commit w r).2 (Resource.commit w r).1).2).db
        "Resources" "ResourceID" (pyGet r.config "ResourceID") = 1) ∧
    (∀ (w : World) (p : ToolParam) (tid : Value),
      pyTruthy (pyGet p.config "ParamID") = true →
      countId ((ToolParam.commit (ToolParam.commit w p tid).2
          (ToolParam.commit w p tid).1 tid).2).db
        "ToolParams" "ParamID" (pyGet p.config "ParamID") = 1) ∧
    (∀ (w : World) (T T1 : Tool) (w1 : World) (T2 : Tool) (w2 : World),
      pyTruthy (Tool.id T) = true →
      Tool.commit w T = .ok (T1, w1) →
      Tool.commit w1 T1 = .ok (T2, w2) →
      countId w1.db "Tools" "ToolID" (Tool.id T) = 1 ∧
      countId w2.db "Tools" "ToolID" (Tool.id T) = 1) := by
  refine ⟨?_, ?_, ?_⟩
  · intro w r h
    have h1 := Resource.commit_of_rid w r h
    have h2 := Resource.commit_of_rid
      (dbWrite w (ClothoDB.set_row w.db "Resources" r.config "ResourceID")) r h
    have key : (Resource.commit (Resource.commit w r).2 (Resource.commit w r).1).2 =
        dbWrite (dbWrite w (ClothoDB.set_row w.db "Resources" r.config "ResourceID"))
          (ClothoDB.set_row
            (dbWrite w (ClothoDB.set_row w.db "Resources" r.config "ResourceID")).db
            "Resources" r.config "ResourceID") := by
      rw [h1]
      exact congrArg Prod.snd h2
    rw [key]
    exact set_row_count
      (dbWrite w (ClothoDB.set_row w.db "Resources" r.config "ResourceID")).db
      "Resources" r.config "ResourceID"
  · intro w p tid h
    have hne1 : ("ToolID" == "ParamID") = false := by rfl
    have hne2 : ("Name" == "ParamID") = false := by rfl
    have h1 := ToolParam.commit_of_pid w p tid h
    have hid1 : pyTruthy (pyGet (rowSet p.config "ToolID" tid) "ParamID") = true := by
      rw [pyGet_rowSet_ne p.config "ToolID" "ParamID" tid hne1]
      exact h
    have h2 := ToolParam.commit_of_pid
      (dbWrite w (ClothoDB.set_row w.db "ToolParams"
        (rowSet (rowSet p.config "ToolID" tid) "Name" p.name) "ParamID"))
      (ToolParam.mk (rowSet p.config "ToolID" tid) p.name) tid hid1
    have key : (ToolParam.commit (ToolParam.commit w p tid).2
        (ToolParam.commit w p tid).1 tid).2 =
        dbWrite (dbWrite w (ClothoDB.set_row w.db "ToolParams"
          (rowSet (rowSet p.config "ToolID" tid) "Name" p.name) "ParamID"))
          (ClothoDB.set_row
            (dbWrite w (ClothoDB.set_row w.db "ToolParams"
              (rowSet (rowSet p.config "ToolID" tid) "Name" p.name) "ParamID")).db
            "ToolParams"
            (rowSet (rowSet (rowSet p.config "ToolID" tid) "ToolID" tid) "Name" p.name)
            "ParamID") := by
      rw [h1]
      exact congrArg Prod.snd h2
    rw [key]
    have hrow : pyGet (rowSet (rowSet (rowSet p.config "ToolID" tid) "ToolID" tid)
        "Name" p.name) "ParamID" = pyGet p.config "ParamID" := by
      rw [pyGet_rowSet_ne _ "Name" "ParamID" _ hne2,
        pyGet_rowSet_ne _ "ToolID" "ParamID" _ hne1,
        pyGet_rowSet_ne _ "ToolID" "ParamID" _ hne1]
    rw [← hrow]
    exact set_row_count _ "ToolParams"
      (rowSet (rowSet (rowSet p.config "ToolID" tid) "ToolID" tid) "Name" p.name)
      "ParamID"
  · intro w T T1 w1 T2 w2 hid h1 h2
    have c1 := Tool.commit_count w T T1 w1 hid h1
    have hidsame : Tool.id T1 = Tool.id T := by
      unfold Tool.id
      rw [c1.2]
    have hid1 : pyTruthy (Tool.id T1) = true := by
      rw [hidsame]
      exact hid
    have c2 := Tool.commit_count w1 T1 T2 w2 hid1 h2
    refine ⟨c1.1, ?_⟩
    rw [← hidsame]
    exact c2.1

/-- A store with the full empty schema, used by concrete runs. -/
def exWorld : World := World.mk
  [("Tools", Table.mk ["ToolID", "Name", "Path"] []),
   ("ToolParams", Table.mk ["ParamID", "ToolID", "Name", "Value", "IsInput",
     "IsResource", "IsRead", "IsWrite", "FeederToolName", "FeederParamName"] []),
   ("ToolPredecessors", Table.mk ["RelationshipID", "ToolID", "PredecessorID"] []),
   ("ToolOutputs", Table.mk ["OutputID", "ToolID", "OutputOrder", "Name"] []),
   ("Resources", Table.mk ["ResourceID", "Name", "Path", "Parent"] []),
   ("Activity", Table.mk ["ActivityID", "ToolID", "ToolName", "ToolPath",
     "StartTime", "EndTime", "Duration", "Succeeded", "Message"] []),
   ("ActivityIO", Table.mk ["IOID", "ActivityID", "ParamID", "ParamName", "Value",
     "IsResource", "IsInput", "IsRead", "IsWrite"] []),
   ("BatchActivity", Table.mk ["RelationshipID", "BatchID", "ActivityID"] [])]
  [] [] 0 0

/-- A tool that already carries its identifier. -/
def exTool : Tool := Tool.mk
  [("ToolID", Value.s "t1"), ("Name", Value.s "T"), ("Path", Value.s "m.f")]
  [] [] [] none

/-- A resource that already carries its identifier. -/
def exRes : Resource := Resource.mk
  [("ResourceID", Value.s "r1"), ("Name", Value.s "R"),
   ("Path", Value.null), ("Parent", Value.null)] none

/-- A parameter that already carries its identifier. -/
def exParam : ToolParam := ToolParam.mk
  [("ParamID", Value.s "p1"), ("ToolID", Value.s "t1"), ("Value", Value.s "v"),
   ("IsInput", Value.b true), ("IsResource", Value.null), ("IsRead", Value.null),
   ("IsWrite", Value.null), ("FeederToolName", Value.null),
   ("FeederParamName", Value.null)] (Value.s "prm")

def exToolCommit1 : Tool × World :=
  match Tool.commit exWorld exTool with
  | .ok p => p
  | .error _ => (exTool, exWorld)

def exToolCommit2 : Tool × World :=
  match Tool.commit exToolCommit1.2 exToolCommit1.1 with
  | .ok p => p
  | .error _ => exToolCommit1

theorem commit_twice_unique_witness :
    countId ((Resource.commit (Resource.commit exWorld exRes).2
        (Resource.commit exWorld exRes).1).2).db
      "Resources" "ResourceID" (pyGet exRes.config "ResourceID") = 1 ∧
    countId ((ToolParam.commit (ToolParam.commit exWorld exParam (Value.s "t1")).2
        (ToolParam.commit exWorld exParam (Value.s "t1")).1 (Value.s "t1")).2).db
      "ToolParams" "ParamID" (pyGet exParam.config "ParamID") = 1 ∧
    (countId exToolCommit1.2.db "Tools" "ToolID" (Tool.id exTool) = 1 ∧
     countId exToolCommit2.2.db "Tools" "ToolID" (Tool.id exTool) = 1) :=
  ⟨commit_twice_unique.1 exWorld exRes (by rfl),
   commit_twice_unique.2.1 exWorld exParam (Value.s "t1") (by rfl),
   commit_twice_unique.2.2 exWorld exTool exToolCommit1.1 exToolCommit1.2
     exToolCommit2.1 exToolCommit2.2 (by rfl) (by rfl) (by rfl)⟩

theorem pyGet_rowSet_self (r : Row) (k : String) (v : Value) :
    pyGet (rowSet r k v) k = v := by
  unfold pyGet rowSet
  rw [alGet_alSet]
  rfl

theorem map_quote_ne (l : List Char) (h : Char.ofNat 39 ∈ l) :
    l.map (fun c => if c = Char.ofNat 39 then Char.ofNat 34 else c) ≠ l := by
  induction l with
  | nil => cases h
  | cons c rest ih =>
    intro heq
    simp only [List.map_cons, List.cons.injEq] at heq
    by_cases hc : c = Char.ofNat 39
    · rw [if_pos hc, hc] at heq
      exact absurd heq.1 (by decide)
    · rcases List.mem_cons.mp h with h1 | h2
      · exact hc h1.symm
      · exact ih h2 heq.2

theorem replaceQuotes_changes (s : String) (h : Char.ofNat 39 ∈ s.data) :
    replaceQuotes s ≠ s := by
  intro heq
  have hd : (replaceQuotes s).data = s.data := by rw [heq]
  exact map_quote_ne s.data h hd

/-- Unfolding of clothodb.update when the table exists: each matching row takes
the non-null vals in order, other rows pass through. -/
theorem update_activity_eq (db : DB) (t : Table) (aid : Value) (vals : Row)
    (ht : dbGetTable db "Activity" = some t) :
    ClothoDB.update db "Activity" "ActivityID" aid vals =
      .ok (dbSetTable db "Activity" (Table.mk t.cols (t.rows.map (fun r =>
        if cellEq r "ActivityID" aid then
          vals.foldl (fun acc kv => if kv.2 == Value.null then acc else rowSet acc kv.1 kv.2) r
        else r)))) := by
  unfold ClothoDB.update
  rw [ht]

/-- Unfolding of Tool.end_activity for a string message: the stored Message val
is the quote-replaced text. -/
theorem Tool.end_activity_some_eq (w : World) (T : Tool) (aid : Value)
    (succ : Bool) (s : String) (st : Nat) (hst : T.start_time = some st) :
    Tool.end_activity w T aid succ (Value.s s) =
      match ClothoDB.update w.db "Activity" "ActivityID" aid
        [("EndTime", Value.s (get_time_string w.now)),
         ("Duration", Value.s (durationString st w.now)),
         ("Succeeded", Value.b succ),
         ("Message", Value.s (replaceQuotes s))] with
      | .error e => .error e
      | .ok db2 => .ok (T, dbWrite (getNow w).2 db2) := by
  obtain ⟨cfg, prms, prds, outs, stt⟩ := T
  cases stt with
  | none =>
    have h2 : (none : Option Nat) = some st := hst
    exact Option.noConfusion h2
  | some st2 =>
    have h2 : some st2 = some st := hst
    injection h2 with h3
    subst h3
    rfl

/-- Unfolding of Tool.end_activity for a null message: no Message val is
applied by the update. -/
theorem Tool.end_activity_null_eq (w : World) (T : Tool) (aid : Value)
    (succ : Bool) (st : Nat) (hst : T.start_time = some st) :
    Tool.end_activity w T aid succ Value.null =
      match ClothoDB.update w.db "Activity" "ActivityID" aid
        [("EndTime", Value.s (get_time_string w.now)),
         ("Duration", Value.s (durationString st w.now)),
         ("Succeeded", Value.b succ),
         ("Message", Value.null)] with
      | .error e => .error e
      | .ok db2 => .ok (T, dbWrite (getNow w).2 db2) := by
  obtain ⟨cfg, prms, prds, outs, stt⟩ := T
  cases stt with
  | none =>
    have h2 : (none : Option Nat) = some st := hst
    exact Option.noConfusion h2
  | some st2 =>
    have h2 : some st2 = some st := hst
    injection h2 with h3
    subst h3
    rfl

/-- C10: for a failed run the Message persisted in the Activity row is not the
verbatim exception text: every single-quote character is first replaced with a
double-quote character (so a message containing a quote is stored changed),
while a null message leaves the stored Message cell of every row unchanged
rather than clearing it, because clothodb.update skips null vals. -/
theorem end_activity_message_spec (w : World) (T : Tool) (aid : Value)
    (st : Nat) (t : Table) (hst : T.start_time = some st)
    (ht : dbGetTable w.db "Activity" = some t) :
    (∀ s : String, ∃ w2 : World,
      Tool.end_activity w T aid false (Value.s s) = .ok (T, w2) ∧
      dbGetTable w2.db "Activity" = some (Table.mk t.cols (t.rows.map (fun r =>
        if cellEq r "ActivityID" aid then
          rowSet (rowSet (rowSet (rowSet r "EndTime" (Value.s (get_time_string w.now)))
            "Duration" (Value.s (durationString st w.now)))
            "Succeeded" (Value.b false))
            "Message" (Value.s (replaceQuotes s))
        else r))) ∧
      (∀ r : Row,
        pyGet (rowSet (rowSet (rowSet (rowSet r "EndTime" (Value.s (get_time_string w.now)))
            "Duration" (Value.s (durationString st w.now)))
            "Succeeded" (Value.b false))
            "Message" (Value.s (replaceQuotes s))) "Message"
          = Value.s (replaceQuotes s)) ∧
      (Char.ofNat 39 ∈ s.data → replaceQuotes s ≠ s)) ∧
    (∃ w2 : World,
      Tool.end_activity w T aid false Value.null = .ok (T, w2) ∧
      dbGetTable w2.db "Activity" = some (Table.mk t.cols (t.rows.map (fun r =>
        if cellEq r "ActivityID" aid then
          rowSet (rowSet (rowSet r "EndTime" (Value.s (get_time_string w.now)))
            "Duration" (Value.s (durationString st w.now)))
            "Succeeded" (Value.b false)
        else r))) ∧
      (∀ r : Row,
        pyGet (rowSet (rowSet (rowSet r "EndTime" (Value.s (get_time_string w.now)))
            "Duration" (Value.s (durationString st w.now)))
            "Succeeded" (Value.b false)) "Message" = pyGet r "Message")) := by
  constructor
  · intro s
    refine ⟨dbWrite (getNow w).2 (dbSetTable w.db "Activity" (Table.mk t.cols
      (t.rows.map (fun r =>
        if cellEq r "ActivityID" aid then
          rowSet (rowSet (rowSet (rowSet r "EndTime" (Value.s (get_time_string w.now)))
            "Duration" (Value.s (durationString st w.now)))
            "Succeeded" (Value.b false))
            "Message" (Value.s (replaceQuotes s))
        else r)))), ?_, ?_, ?_, ?_⟩
    · rw [Tool.end_activity_some_eq w T aid false s st hst,
        update_activity_eq w.db t aid
          [("EndTime", Value.s (get_time_string w.now)),
           ("Duration", Value.s (durationString st w.now)),
           ("Succeeded", Value.b false),
           ("Message", Value.s (replaceQuotes s))] ht]
      rfl
    · exact alGet_alSet w.db "Activity" _
    · intro r
      exact pyGet_rowSet_self _ "Message" _
    · intro h
      exact replaceQuotes_changes s h
  · refine ⟨dbWrite (getNow w).2 (dbSetTable w.db "Activity" (Table.mk t.cols
      (t.rows.map (fun r =>
        if cellEq r "ActivityID" aid then
          rowSet (rowSet (rowSet r "EndTime" (Value.s (get_time_string w.now)))
            "Duration" (Value.s (durationString st w.now)))
            "Succeeded" (Value.b false)
        else r)))), ?_, ?_, ?_⟩
    · rw [Tool.end_activity_null_eq w T aid false st hst,
        update_activity_eq w.db t aid
          [("EndTime", Value.s (get_time_string w.now)),
           ("Duration", Value.s (durationString st w.now)),
           ("Succeeded", Value.b false),
           ("Message", Value.null)] ht]
      rfl
    · exact alGet_alSet w.db "Activity" _
    · intro r
      rw [pyGet_rowSet_ne _ "Succeeded" "Message" _ (by decide),
        pyGet_rowSet_ne _ "Duration" "Message" _ (by decide),
        pyGet_rowSet_ne _ "EndTime" "Message" _ (by decide)]

def c10Cols : List String :=
  ["ActivityID", "EndTime", "Duration", "Succeeded", "Message"]

def c10Row : Row := [("ActivityID", Value.s "act1"), ("Message", Value.s "old")]

def c10Table : Table := Table.mk c10Cols [c10Row]

def c10World : World := World.mk [("Activity", c10Table)] [] [] 0 5

def c10Tool : Tool := Tool.mk [("ToolID", Value.s "t1")] [] [] [] (some 2)

/-- A message holding a single quote, written by code point. -/
def c10Str : String := String.mk [Char.ofNat 97, Char.ofNat 39, Char.ofNat 98]

theorem end_activity_message_spec_witness :
    (∃ w2 : World,
      Tool.end_activity c10World c10Tool (Value.s "act1") false (Value.s c10Str) =
        .ok (c10Tool, w2) ∧
      ∃ t2 : Table, dbGetTable w2.db "Activity" = some t2 ∧
        ∀ r ∈ t2.rows, pyGet r "Message" = Value.s (replaceQuotes c10Str)) ∧
    replaceQuotes c10Str ≠ c10Str ∧
    (∃ w2 : World,
      Tool.end_activity c10World c10Tool (Value.s "act1") false Value.null =
        .ok (c10Tool, w2) ∧
      ∃ t2 : Table, dbGetTable w2.db "Activity" = some t2 ∧
        ∀ r ∈ t2.rows, pyGet r "Message" = Value.s "old") := by
  have H := end_activity_message_spec c10World c10Tool (Value.s "act1") 2 c10Table rfl rfl
  obtain ⟨h1all, h2⟩ := H
  obtain ⟨w2, he, hdb, _, hchg⟩ := h1all c10Str
  obtain ⟨w3, he3, hdb3, _⟩ := h2
  refine ⟨⟨w2, he, ⟨_, hdb, by decide⟩⟩, hchg (by decide), ⟨w3, he3, ⟨_, hdb3, by decide⟩⟩⟩

theorem alHasKey_append {α β : Type} [BEq α] (l1 l2 : List (α × β)) (k : α) :
    alHasKey (l1 ++ l2) k = (alHasKey l1 k || alHasKey l2 k) := by
  unfold alHasKey
  exact List.any_append

theorem alSet_not_has {α β : Type} [BEq α] (l : List (α × β)) (k : α) (v : β)
    (h : alHasKey l k = false) : alSet l k v = l ++ [(k, v)] := by
  unfold alSet
  simp [h]

theorem foldl_alSet_eq_append {α β : Type} [BEq α] [LawfulBEq α]
    (pairs : List (α × β)) :
    ∀ acc : List (α × β),
      (∀ kv ∈ pairs, alHasKey acc kv.1 = false) →
      (pairs.map Prod.fst).Nodup →
      pairs.foldl (fun a kv => alSet a kv.1 kv.2) acc = acc ++ pairs := by
  induction pairs with
  | nil =>
    intro acc _ _
    simp
  | cons kv rest ih =>
    intro acc h1 h2
    simp only [List.foldl_cons]
    have hk : alHasKey acc kv.1 = false := h1 kv (List.mem_cons_self kv rest)
    rw [alSet_not_has acc kv.1 kv.2 hk]
    simp only [List.map_cons, List.nodup_cons] at h2
    have h1x : ∀ kv2 ∈ rest, alHasKey (acc ++ [(kv.1, kv.2)]) kv2.1 = false := by
      intro kv2 hmem
      rw [alHasKey_append]
      have e1 : alHasKey acc kv2.1 = false := h1 kv2 (List.mem_cons_of_mem kv hmem)
      have e2 : alHasKey [(kv.1, kv.2)] kv2.1 = false := by
        simp only [alHasKey, List.any_cons, List.any_nil, Bool.or_false]
        apply beq_eq_false_iff_ne.mpr
        intro hEq
        exact h2.1 (by rw [hEq]; exact List.mem_map_of_mem Prod.fst hmem)
      rw [e1, e2]
      rfl
    rw [ih (acc ++ [(kv.1, kv.2)]) h1x h2.2, List.append_assoc]
    rfl

theorem dictOfPairs_nodup (pairs : List (Value × Value))
    (h : (pairs.map Prod.fst).Nodup) : dictOfPairs pairs = pairs := by
  unfold dictOfPairs
  rw [foldl_alSet_eq_append pairs [] (fun kv _ => rfl) h]
  rfl

theorem zip_fst_sublist {α β : Type} (l1 : List α) (l2 : List β) :
    ((l1.zip l2).map Prod.fst).Sublist l1 := by
  induction l1 generalizing l2 with
  | nil => simp
  | cons a rest ih =>
    cases l2 with
    | nil => simp
    | cons b l2r =>
      simp only [List.zip_cons_cons, List.map_cons]
      exact List.Sublist.cons₂ a (ih l2r)

theorem zip_fst_nodup {α β : Type} (l1 : List α) (l2 : List β) (h : l1.Nodup) :
    ((l1.zip l2).map Prod.fst).Nodup :=
  List.Nodup.sublist (zip_fst_sublist l1 l2) h

theorem alGet_get_nodup {α β : Type} [BEq α] [LawfulBEq α] (l : List (α × β))
    (hnd : (l.map Prod.fst).Nodup) (i : Nat) (hi : i < l.length) :
    alGet l (l.get ⟨i, hi⟩).1 = some (l.get ⟨i, hi⟩).2 := by
  induction l generalizing i with
  | nil => exact absurd hi (Nat.not_lt_zero i)
  | cons kv rest ih =>
    simp only [List.map_cons, List.nodup_cons] at hnd
    cases i with
    | zero =>
      rw [alGet_cons]
      simp
    | succ j =>
      have hj : j < rest.length := Nat.lt_of_succ_lt_succ hi
      have hgt : (kv :: rest).get ⟨j + 1, hi⟩ = rest.get ⟨j, hj⟩ := rfl
      rw [hgt]
      have hne : (kv.1 == (rest.get ⟨j, hj⟩).1) = false := by
        apply beq_eq_false_iff_ne.mpr
        intro hEq
        exact hnd.1 (by rw [hEq]; exact List.mem_map_of_mem Prod.fst (List.get_mem rest j hj))
      rw [alGet_cons, hne]
      exact ih hnd.2 j hj

theorem zip_take_right {α β : Type} (l1 : List α) (l2 : List β) :
    l1.zip l2 = l1.zip (l2.take l1.length) := by
  induction l1 generalizing l2 with
  | nil => rfl
  | cons a rest ih =>
    cases l2 with
    | nil => rfl
    | cons b l2r =>
      simp only [List.zip_cons_cons, List.length_cons, List.take_succ_cons]
      rw [← ih l2r]

theorem zip_take_left {α β : Type} (l1 : List α) (l2 : List β) :
    l1.zip l2 = (l1.take l2.length).zip l2 := by
  induction l1 generalizing l2 with
  | nil => simp
  | cons a rest ih =>
    cases l2 with
    | nil => rfl
    | cons b l2r =>
      simp only [List.zip_cons_cons, List.length_cons, List.take_succ_cons]
      rw [← ih l2r]

theorem zip_get {α β : Type} (l1 : List α) (l2 : List β) (i : Nat)
    (h1 : i < l1.length) (h2 : i < l2.length) (hz : i < (l1.zip l2).length) :
    (l1.zip l2).get ⟨i, hz⟩ = (l1.get ⟨i, h1⟩, l2.get ⟨i, h2⟩) := by
  induction l1 generalizing l2 i with
  | nil => exact absurd h1 (Nat.not_lt_zero i)
  | cons a rest ih =>
    cases l2 with
    | nil => exact absurd h2 (Nat.not_lt_zero i)
    | cons b l2r =>
      cases i with
      | zero => rfl
      | succ j =>
        exact ih l2r j (Nat.lt_of_succ_lt_succ h1) (Nat.lt_of_succ_lt_succ h2)
          (Nat.lt_of_succ_lt_succ hz)

theorem get_not_mem_take {α : Type} :
    ∀ (l : List α), l.Nodup → ∀ (n i : Nat) (hi : i < l.length), n ≤ i →
      l.get ⟨i, hi⟩ ∉ l.take n := by
  intro l
  induction l with
  | nil =>
    intro _ n i hi
    exact absurd hi (Nat.not_lt_zero i)
  | cons a rest ih =>
    intro hnd n i hi hn
    rw [List.nodup_cons] at hnd
    cases n with
    | zero => simp
    | succ m =>
      cases i with
      | zero => exact absurd hn (by omega)
      | succ j =>
        have hj : j < rest.length := Nat.lt_of_succ_lt_succ hi
        have hgt : (a :: rest).get ⟨j + 1, hi⟩ = rest.get ⟨j, hj⟩ := rfl
        rw [hgt, List.take_succ_cons]
        intro hmem
        rcases List.mem_cons.mp hmem with hcase | hcase
        · exact hnd.1 (hcase ▸ List.get_mem rest j hj)
        · exact ih hnd.2 m j hj (Nat.le_of_succ_le_succ hn) hcase

theorem mem_of_alHasKey {α β : Type} [BEq α] [LawfulBEq α] (l : List (α × β))
    (k : α) (h : alHasKey l k = true) : k ∈ l.map Prod.fst := by
  unfold alHasKey at h
  rcases List.any_eq_true.mp h with ⟨kv, hm, hb⟩
  exact (eq_of_beq hb) ▸ List.mem_map_of_mem Prod.fst hm

/-- The tail of tool.Tool.run from the point where the invocation target is
resolved and called: written for an already-committed tool T2, the resolved
keyword arguments kwargs1, and the fresh activity id aid. -/
def Tool.run_invoke (env : Env) (fuel : Nat) (T2 : Tool) (kwargs1 : Kw)
    (w3 : World) (shed2 : Option ResourceShed) (aid : Value) :
    Except String (Option Kw × World × Option ResourceShed) :=
  match Tool.path T2 with
  | Value.s pstr =>
    match pyRsplitDot pstr with
    | none => .error "ValueError unpacking rsplit"
    | some _ =>
      match env pstr with
      | none => .error ("ImportError for " ++ pstr)
      | some func =>
        let sa := Tool.start_activity w3 T2 aid
        let w5 := World.mk sa.2.db sa.2.log (sa.2.calls ++ [(pstr, kwargs1)])
          sa.2.nextUuid sa.2.now
        match func kwargs1 with
        | .error e =>
          let w6 := logAdd w5
            ("Tool " ++ pyStr (Tool.name sa.1) ++ " failed. " ++ e)
          match Tool.end_activity w6 sa.1 aid false (Value.s e) with
          | .error e2 => .error e2
          | .ok (_, w7) => .ok (none, w7, shed2)
        | .ok ret =>
          let output_dict := outputZip sa.1.outputs ret
          let batch_ids := (alGet output_dict (Value.s "batch_ids")).getD
            ((alGet output_dict (Value.s "batch_id")).getD Value.null)
          let w6 := Tool.write_batches w5 batch_ids aid
          match Tool.end_activity w6 sa.1 aid true
            ((alGet output_dict (Value.s "message")).getD Value.null) with
          | .error e => .error e
          | .ok (T4, w7) =>
            match Tool.update_outputs fuel (Tool.id T4) aid output_dict
              T4.params kwargs1 w7 shed2 [] with
            | .error e => .error e
            | .ok (_, w8, shed3) => .ok (some output_dict, w8, shed3)
  | _ => .error "AttributeError rsplit on a non-string Path"

/-- tool.Tool.run factored through its invocation tail, once the predecessor
run, the conditional commit and the input resolution are pinned down. -/
theorem run_eq_invoke (env : Env) (fuel : Nat) (T : Tool) (kwargs : Kw)
    (w : World) (shed? : Option ResourceShed)
    (pred_outputs : List (Value × Kw)) (dpn : Option Value) (w1 : World)
    (shed1 : Option ResourceShed) (T1 : Tool) (w2 : World) (kwargs1 : Kw)
    (params1 : List (Value × ToolParam)) (w3 : World)
    (shed2 : Option ResourceShed)
    (h0 : (Tool.path T == Value.null) = false)
    (h1 : Tool.run_predecessors env fuel T kwargs w shed? =
      .ok (some pred_outputs, dpn, w1, shed1))
    (h2 : (if pyTruthy (Tool.id T) = false then Tool.commit w1 T
           else .ok (T, w1)) = .ok (T1, w2))
    (h3 : Tool.update_inputs fuel (Tool.name T1) (Tool.id T1) (freshUuid w2).1
      pred_outputs dpn T1.params kwargs (freshUuid w2).2 shed1 [] =
      .ok (kwargs1, params1, w3, shed2)) :
    Tool.run env (fuel + 1) T kwargs w shed? =
      Tool.run_invoke env fuel
        (Tool.mk T1.config params1 T1.predecessors T1.outputs T1.start_time)
        kwargs1 w3 shed2 (freshUuid w2).1 := by
  rw [Tool.run]
  simp only [h0, Bool.false_eq_true, if_false, h1, h2, h3]
  rfl

theorem Tool.commit_keeps_outputs (w : World) (T T2 : Tool) (w2 : World)
    (h : Tool.commit w T = .ok (T2, w2)) : T2.outputs = T.outputs := by
  unfold Tool.commit at h
  split at h
  all_goals simp only [] at h
  · split at h
    · exact Except.noConfusion h
    · split at h
      · exact Except.noConfusion h
      · have h1 := Except.ok.inj h
        have hT : _ = T2 := congrArg Prod.fst h1
        rw [← hT]
  · split at h
    · exact Except.noConfusion h
    · split at h
      · exact Except.noConfusion h
      · have h1 := Except.ok.inj h
        have hT : _ = T2 := congrArg Prod.fst h1
        rw [← hT]

theorem Tool.commit_keeps_path (w : World) (T T2 : Tool) (w2 : World)
    (h : Tool.commit w T = .ok (T2, w2)) : Tool.path T2 = Tool.path T := by
  unfold Tool.commit at h
  split at h
  all_goals simp only [] at h
  · split at h
    · exact Except.noConfusion h
    · split at h
      · exact Except.noConfusion h
      · have h1 := Except.ok.inj h
        have hT : _ = T2 := congrArg Prod.fst h1
        rw [← hT]
        exact pyGet_rowSet_ne T.config "ToolID" "Path" (freshUuid w).1 (by decide)
  · split at h
    · exact Except.noConfusion h
    · split at h
      · exact Except.noConfusion h
      · have h1 := Except.ok.inj h
        have hT : _ = T2 := congrArg Prod.fst h1
        rw [← hT]
        rfl

/-- C4: the value returned by the invocation target is zipped positionally
against the declared output names (tool.Tool.run): a successful run returns
the mapping outputZip outputs ret; a single non-tuple value pairs with the
first declared name, a tuple pairs element by element in order, extra return
values are dropped, declared names beyond the return values stay unassigned;
outputs [a, b] against (1, 2) give a=1 and b=2, and a single scalar against
one declared output gives a=value. -/
theorem run_output_zipping :
    (∀ (env : Env) (fuel : Nat) (T : Tool) (kwargs : Kw) (w : World)
      (shed? : Option ResourceShed) (pred_outputs : List (Value × Kw))
      (dpn : Option Value) (w1 : World) (shed1 : Option ResourceShed)
      (T1 : Tool) (w2 : World) (kwargs1 : Kw)
      (params1 : List (Value × ToolParam)) (w3 : World)
      (shed2 : Option ResourceShed) (pstr : String) (parts : String × String)
      (func : Kw → Except String PyRet) (ret : PyRet) (T4 : Tool) (w7 : World)
      (params2 : List (Value × ToolParam)) (w8 : World)
      (shed3 : Option ResourceShed),
      (Tool.path T == Value.null) = false →
      Tool.run_predecessors env fuel T kwargs w shed? =
        .ok (some pred_outputs, dpn, w1, shed1) →
      (if pyTruthy (Tool.id T) = false then Tool.commit w1 T
       else .ok (T, w1)) = .ok (T1, w2) →
      Tool.update_inputs fuel (Tool.name T1) (Tool.id T1) (freshUuid w2).1
        pred_outputs dpn T1.params kwargs (freshUuid w2).2 shed1 [] =
        .ok (kwargs1, params1, w3, shed2) →
      Tool.path T1 = Value.s pstr →
      pyRsplitDot pstr = some parts →
      env pstr = some func →
      func kwargs1 = .ok ret →
      Tool.end_activity
        (Tool.write_batches
          (World.mk
            (Tool.start_activity w3 (Tool.mk T1.config params1 T1.predecessors
              T1.outputs T1.start_time) (freshUuid w2).1).2.db
            (Tool.start_activity w3 (Tool.mk T1.config params1 T1.predecessors
              T1.outputs T1.start_time) (freshUuid w2).1).2.log
            ((Tool.start_activity w3 (Tool.mk T1.config params1 T1.predecessors
              T1.outputs T1.start_time) (freshUuid w2).1).2.calls ++
              [(pstr, kwargs1)])
            (Tool.start_activity w3 (Tool.mk T1.config params1 T1.predecessors
              T1.outputs T1.start_time) (freshUuid w2).1).2.nextUuid
            (Tool.start_activity w3 (Tool.mk T1.config params1 T1.predecessors
              T1.outputs T1.start_time) (freshUuid w2).1).2.now)
          ((alGet (outputZip T1.outputs ret) (Value.s "batch_ids")).getD
            ((alGet (outputZip T1.outputs ret) (Value.s "batch_id")).getD
              Value.null))
          (freshUuid w2).1)
        (Tool.start_activity w3 (Tool.mk T1.config params1 T1.predecessors
          T1.outputs T1.start_time) (freshUuid w2).1).1
        (freshUuid w2).1 true
        ((alGet (outputZip T1.outputs ret) (Value.s "message")).getD Value.null)
        = .ok (T4, w7) →
      Tool.update_outputs fuel (Tool.id T4) (freshUuid w2).1
        (outputZip T1.outputs ret) T4.params kwargs1 w7 shed2 [] =
        .ok (params2, w8, shed3) →
      Tool.run env (fuel + 1) T kwargs w shed? =
        .ok (some (outputZip T.outputs ret), w8, shed3)) ∧
    (∀ (o : Value) (outs : List Value) (v : Value),
      outputZip (o :: outs) (PyRet.val v) = [(o, v)]) ∧
    (∀ v : Value, outputZip [] (PyRet.val v) = []) ∧
    (∀ (outs vs : List Value), outs.Nodup → ∀ (i : Nat) (hi : i < outs.length)
      (hj : i < vs.length),
      alGet (outputZip outs (PyRet.tup vs)) (outs.get ⟨i, hi⟩) =
        some (vs.get ⟨i, hj⟩)) ∧
    (∀ (outs vs : List Value),
      outputZip outs (PyRet.tup vs) =
        outputZip outs (PyRet.tup (vs.take outs.length))) ∧
    (∀ (outs vs : List Value), outs.Nodup → ∀ (i : Nat) (hi : i < outs.length),
      vs.length ≤ i →
      alGet (outputZip outs (PyRet.tup vs)) (outs.get ⟨i, hi⟩) = none) ∧
    outputZip [Value.s "a", Value.s "b"] (PyRet.tup [Value.i 1, Value.i 2]) =
      [(Value.s "a", Value.i 1), (Value.s "b", Value.i 2)] ∧
    outputZip [Value.s "a"] (PyRet.val (Value.i 7)) =
      [(Value.s "a", Value.i 7)] := by
  refine ⟨?_, ?_, ?_, ?_, ?_, ?_, ?_, ?_⟩
  · intro env fuel T kwargs w shed? pred_outputs dpn w1 shed1 T1 w2 kwargs1
      params1 w3 shed2 pstr parts func ret T4 w7 params2 w8 shed3
      h0 h1 h2 h3 h4 h5 h6 h7 h8 h9
    rw [run_eq_invoke env fuel T kwargs w shed? pred_outputs dpn w1 shed1 T1 w2
      kwargs1 params1 w3 shed2 h0 h1 h2 h3]
    have h4x : Tool.path (Tool.mk T1.config params1 T1.predecessors T1.outputs
      T1.start_time) = Value.s pstr := h4
    simp only [Tool.run_invoke, h4x, h5, h6, h7]
    simp only [Tool.start_activity, getNow] at h8 h9 ⊢
    simp only [h8, h9]
    have houts : T1.outputs = T.outputs := by
      split at h2
      · exact Tool.commit_keeps_outputs w1 T T1 w2 h2
      · have h1x := Except.ok.inj h2
        have hT : T = T1 := congrArg Prod.fst h1x
        rw [← hT]
    rw [houts]
  · intro o outs v
    simp only [outputZip, pyRetToTuple, List.zip_cons_cons, List.zip_nil_right]
    rfl
  · intro v
    rfl
  · intro outs vs hnd i hi hj
    have hz : i < (outs.zip vs).length := by
      rw [List.length_zip]
      exact lt_min hi hj
    simp only [outputZip, pyRetToTuple]
    rw [dictOfPairs_nodup _ (zip_fst_nodup outs vs hnd)]
    have hget := zip_get outs vs i hi hj hz
    have hkey : outs.get ⟨i, hi⟩ = ((outs.zip vs).get ⟨i, hz⟩).1 := by rw [hget]
    rw [hkey, alGet_get_nodup _ (zip_fst_nodup outs vs hnd) i hz, hget]
  · intro outs vs
    simp only [outputZip, pyRetToTuple]
    rw [zip_take_right outs vs]
  · intro outs vs hnd i hi hvs
    simp only [outputZip, pyRetToTuple]
    rw [dictOfPairs_nodup _ (zip_fst_nodup outs vs hnd)]
    apply alGet_none_of_not_hasKey
    cases hk : alHasKey (outs.zip vs) (outs.get ⟨i, hi⟩) with
    | false => rfl
    | true =>
      exfalso
      have hmem := mem_of_alHasKey _ _ hk
      rw [zip_take_left, List.map_fst_zip] at hmem
      · exact get_not_mem_take outs hnd vs.length i hi hvs hmem
      · rw [List.length_take]
        exact min_le_left _ _
  · rfl
  · rfl

/-- A tool with two declared outputs whose target returns the pair (1, 2). -/
def c4Tool : Tool := Tool.mk
  [("ToolID", Value.s "t9"), ("Name", Value.s "zipper"),
   ("Path", Value.s "mod.func")]
  [] [] [Value.s "a", Value.s "b"] none

def c4Ret : PyRet := PyRet.tup [Value.i 1, Value.i 2]

def c4Env : Env := fun p =>
  if p == "mod.func" then some (fun _ => .ok c4Ret) else none

def c4T2 : Tool := Tool.mk c4Tool.config [] c4Tool.predecessors c4Tool.outputs
  c4Tool.start_time

def c4SA : Tool × World := Tool.start_activity (freshUuid exWorld).2 c4T2
  (freshUuid exWorld).1

def c4W5 : World := World.mk c4SA.2.db c4SA.2.log
  (c4SA.2.calls ++ [("mod.func", ([] : Kw))]) c4SA.2.nextUuid c4SA.2.now

def c4W6 : World := Tool.write_batches c4W5
  ((alGet (outputZip c4Tool.outputs c4Ret) (Value.s "batch_ids")).getD
    ((alGet (outputZip c4Tool.outputs c4Ret) (Value.s "batch_id")).getD
      Value.null))
  (freshUuid exWorld).1

def c4End : Tool × World :=
  match Tool.end_activity c4W6 c4SA.1 (freshUuid exWorld).1 true
    ((alGet (outputZip c4Tool.outputs c4Ret) (Value.s "message")).getD
      Value.null) with
  | .ok p => p
  | .error _ => (c4Tool, exWorld)

theorem run_output_zipping_witness :
    Tool.run c4Env 2 c4Tool [] exWorld none =
      .ok (some (outputZip c4Tool.outputs c4Ret), c4End.2, none) ∧
    alGet (outputZip [Value.s "a", Value.s "b"]
      (PyRet.tup [Value.i 1, Value.i 2, Value.i 3])) (Value.s "b") =
      some (Value.i 2) ∧
    alGet (outputZip [Value.s "a", Value.s "b"] (PyRet.tup [Value.i 1]))
      (Value.s "b") = none := by
  refine ⟨?_, ?_, ?_⟩
  · exact run_output_zipping.1 c4Env 1 c4Tool [] exWorld none [] none exWorld
      none c4Tool exWorld [] [] (freshUuid exWorld).2 none "mod.func" ("mod", "func")
      (fun _ => .ok c4Ret) c4Ret c4End.1 c4End.2 [] c4End.2 none
      (by rfl) (by simp [Tool.run_predecessors, Tool.run_preds_go, c4Tool])
      (by rfl) (by simp [Tool.update_inputs, c4Tool]) (by rfl) (by rfl)
      (by rfl) (by rfl) (by rfl) (by rfl)
  · exact run_output_zipping.2.2.2.1 [Value.s "a", Value.s "b"]
      [Value.i 1, Value.i 2, Value.i 3] (by decide) 1 (by decide) (by decide)
  · exact run_output_zipping.2.2.2.2.2.1 [Value.s "a", Value.s "b"]
      [Value.i 1] (by decide) 1 (by decide) (by decide)

/-- Recording a failed activity: end_activity with succeeded = false and a
string message always succeeds when the Activity table exists, and writes
end time, duration, Succeeded = false and the quote-replaced message into
every row matching the activity id. -/
theorem end_activity_failed_record (w : World) (T0 : Tool) (aid : Value)
    (e : String) (st : Nat) (t : Table) (hst : T0.start_time = some st)
    (ht : dbGetTable w.db "Activity" = some t) :
    ∃ w2x : World,
      Tool.end_activity w T0 aid false (Value.s e) = .ok (T0, w2x) ∧
      w2x.db = dbSetTable w.db "Activity" (Table.mk t.cols (t.rows.map (fun r =>
        if cellEq r "ActivityID" aid then
          rowSet (rowSet (rowSet (rowSet r "EndTime"
            (Value.s (get_time_string w.now)))
            "Duration" (Value.s (durationString st w.now)))
            "Succeeded" (Value.b false))
            "Message" (Value.s (replaceQuotes e))
        else r))) := by
  rw [Tool.end_activity_some_eq w T0 aid false e st hst,
    update_activity_eq w.db t aid
      [("EndTime", Value.s (get_time_string w.now)),
       ("Duration", Value.s (durationString st w.now)),
       ("Succeeded", Value.b false),
       ("Message", Value.s (replaceQuotes e))] ht]
  exact ⟨_, rfl, rfl⟩

theorem dbGetTable_dbSetTable_ne (db : DB) (n nx : String) (t : Table)
    (h : (n == nx) = false) :
    dbGetTable (dbSetTable db n t) nx = dbGetTable db nx :=
  alGet_alSet_ne db n nx t h

theorem dbGetTable_dbSetTable_self (db : DB) (n : String) (t : Table) :
    dbGetTable (dbSetTable db n t) n = some t :=
  alGet_alSet db n t

/-- The failure tail of tool.Tool.run: when the invocation target raises, the
exception is caught, a failed Activity is recorded, and the run returns the
failure signal without touching ActivityIO or BatchActivity. -/
theorem run_invoke_func_error (env : Env) (fuel : Nat) (T2 : Tool)
    (kwargs1 : Kw) (w3 : World) (shed2 : Option ResourceShed) (aid : Value)
    (pstr : String) (parts : String × String)
    (func : Kw → Except String PyRet) (e : String) (t3 : Table)
    (h4 : Tool.path T2 = Value.s pstr)
    (h5 : pyRsplitDot pstr = some parts)
    (h6 : env pstr = some func)
    (h7 : func kwargs1 = .error e)
    (ht3 : dbGetTable w3.db "Activity" = some t3) :
    ∃ w7x : World,
      Tool.run_invoke env fuel T2 kwargs1 w3 shed2 aid =
        .ok (none, w7x, shed2) ∧
      dbGetTable w7x.db "ActivityIO" = dbGetTable w3.db "ActivityIO" ∧
      dbGetTable w7x.db "BatchActivity" = dbGetTable w3.db "BatchActivity" ∧
      ∃ tz : Table, dbGetTable w7x.db "Activity" = some tz ∧
        ∀ r ∈ tz.rows, cellEq r "ActivityID" aid = true →
          pyGet r "Succeeded" = Value.b false ∧
          pyGet r "Message" = Value.s (replaceQuotes e) ∧
          pyGet r "EndTime" = Value.s (get_time_string (w3.now + 1)) ∧
          pyGet r "Duration" = Value.s (durationString w3.now (w3.now + 1)) := by
  simp only [Tool.run_invoke, h4, h5, h6, h7]
  obtain ⟨sa1, saw, hsa⟩ : ∃ sa1 saw, Tool.start_activity w3 T2 aid = (sa1, saw) :=
    ⟨_, _, rfl⟩
  simp only [hsa]
  have hst : sa1.start_time = some w3.now := by
    have hfst : (Tool.start_activity w3 T2 aid).1 = sa1 := congrArg Prod.fst hsa
    rw [← hfst]
    rfl
  have hdb : saw.db = ClothoDB.set_row w3.db "Activity"
      [("ActivityID", aid), ("ToolID", Tool.id T2), ("ToolName", Tool.name T2),
       ("ToolPath", Tool.path T2), ("StartTime", Value.s (get_time_string w3.now))]
      "ActivityID" := by
    have hsnd : (Tool.start_activity w3 T2 aid).2 = saw := congrArg Prod.snd hsa
    rw [← hsnd]
    rfl
  have hnow : saw.now = w3.now + 1 := by
    have hsnd : (Tool.start_activity w3 T2 aid).2 = saw := congrArg Prod.snd hsa
    rw [← hsnd]
    rfl
  have ht6 : dbGetTable saw.db "Activity" = some (Table.mk t3.cols
      (t3.rows.filter (fun r => !(pyGet r "ActivityID" ==
        pyGet [("ActivityID", aid), ("ToolID", Tool.id T2),
          ("ToolName", Tool.name T2), ("ToolPath", Tool.path T2),
          ("StartTime", Value.s (get_time_string w3.now))] "ActivityID")) ++
        [[("ActivityID", aid), ("ToolID", Tool.id T2), ("ToolName", Tool.name T2),
          ("ToolPath", Tool.path T2),
          ("StartTime", Value.s (get_time_string w3.now))]])) := by
    rw [hdb]
    unfold ClothoDB.set_row
    rw [ht3]
    exact alGet_alSet w3.db "Activity" _
  obtain ⟨w2x, hE, hdbx⟩ := end_activity_failed_record
    (logAdd (World.mk saw.db saw.log (saw.calls ++ [(pstr, kwargs1)])
      saw.nextUuid saw.now)
      ("Tool " ++ pyStr (Tool.name sa1) ++ " failed. " ++ e))
    sa1 aid e w3.now _ hst ht6
  rw [hE]
  refine ⟨w2x, rfl, ?_, ?_, ?_⟩
  · rw [hdbx, dbGetTable_dbSetTable_ne _ "Activity" "ActivityIO" _ (by decide)]
    show dbGetTable saw.db "ActivityIO" = dbGetTable w3.db "ActivityIO"
    rw [hdb]
    exact dbGetTable_set_row_ne w3.db "Activity" "ActivityIO" _ _ (by decide)
  · rw [hdbx, dbGetTable_dbSetTable_ne _ "Activity" "BatchActivity" _ (by decide)]
    show dbGetTable saw.db "BatchActivity" = dbGetTable w3.db "BatchActivity"
    rw [hdb]
    exact dbGetTable_set_row_ne w3.db "Activity" "BatchActivity" _ _ (by decide)
  · refine ⟨_, by rw [hdbx]; exact dbGetTable_dbSetTable_self _ "Activity" _, ?_⟩
    intro r hr hc
    rcases List.mem_map.mp hr with ⟨r0, hr0, hEq⟩
    by_cases hcell : cellEq r0 "ActivityID" aid = true
    · rw [if_pos hcell] at hEq
      rw [← hEq]
      have hnow2 : (logAdd (World.mk saw.db saw.log
          (saw.calls ++ [(pstr, kwargs1)]) saw.nextUuid saw.now)
          ("Tool " ++ pyStr (Tool.name sa1) ++ " failed. " ++ e)).now =
          w3.now + 1 := hnow
      rw [hnow2]
      refine ⟨?_, ?_, ?_, ?_⟩
      · rw [pyGet_rowSet_ne _ "Message" "Succeeded" _ (by decide)]
        exact pyGet_rowSet_self _ "Succeeded" _
      · exact pyGet_rowSet_self _ "Message" _
      · rw [pyGet_rowSet_ne _ "Message" "EndTime" _ (by decide),
          pyGet_rowSet_ne _ "Succeeded" "EndTime" _ (by decide),
          pyGet_rowSet_ne _ "Duration" "EndTime" _ (by decide)]
        exact pyGet_rowSet_self _ "EndTime" _
      · rw [pyGet_rowSet_ne _ "Message" "Duration" _ (by decide),
          pyGet_rowSet_ne _ "Succeeded" "Duration" _ (by decide)]
        exact pyGet_rowSet_self _ "Duration" _
    · rw [if_neg hcell] at hEq
      rw [← hEq] at hc
      exact absurd hc hcell

/-- C5: when the invocation target raises, tool.Tool.run catches it at the
tool-execution boundary: the Activity row for this run is updated with the
end time, the duration, Succeeded = false and the error message, the run
returns the failure signal with no output mapping instead of re-raising,
and neither ActivityIO nor BatchActivity gains a row after the input
recording. -/
theorem run_invocation_failure (env : Env) (fuel : Nat) (T : Tool)
    (kwargs : Kw) (w : World) (shed? : Option ResourceShed)
    (pred_outputs : List (Value × Kw)) (dpn : Option Value) (w1 : World)
    (shed1 : Option ResourceShed) (T1 : Tool) (w2 : World) (kwargs1 : Kw)
    (params1 : List (Value × ToolParam)) (w3 : World)
    (shed2 : Option ResourceShed) (pstr : String) (parts : String × String)
    (func : Kw → Except String PyRet) (e : String) (t3 : Table)
    (h0 : (Tool.path T == Value.null) = false)
    (h1 : Tool.run_predecessors env fuel T kwargs w shed? =
      .ok (some pred_outputs, dpn, w1, shed1))
    (h2 : (if pyTruthy (Tool.id T) = false then Tool.commit w1 T
           else .ok (T, w1)) = .ok (T1, w2))
    (h3 : Tool.update_inputs fuel (Tool.name T1) (Tool.id T1) (freshUuid w2).1
      pred_outputs dpn T1.params kwargs (freshUuid w2).2 shed1 [] =
      .ok (kwargs1, params1, w3, shed2))
    (h4 : Tool.path T1 = Value.s pstr)
    (h5 : pyRsplitDot pstr = some parts)
    (h6 : env pstr = some func)
    (h7 : func kwargs1 = .error e)
    (ht3 : dbGetTable w3.db "Activity" = some t3) :
    ∃ w7x : World,
      Tool.run env (fuel + 1) T kwargs w shed? = .ok (none, w7x, shed2) ∧
      dbGetTable w7x.db "ActivityIO" = dbGetTable w3.db "ActivityIO" ∧
      dbGetTable w7x.db "BatchActivity" = dbGetTable w3.db "BatchActivity" ∧
      ∃ tz : Table, dbGetTable w7x.db "Activity" = some tz ∧
        ∀ r ∈ tz.rows, cellEq r "ActivityID" (freshUuid w2).1 = true →
          pyGet r "Succeeded" = Value.b false ∧
          pyGet r "Message" = Value.s (replaceQuotes e) ∧
          pyGet r "EndTime" = Value.s (get_time_string (w3.now + 1)) ∧
          pyGet r "Duration" = Value.s (durationString w3.now (w3.now + 1)) := by
  rw [run_eq_invoke env fuel T kwargs w shed? pred_outputs dpn w1 shed1 T1 w2
    kwargs1 params1 w3 shed2 h0 h1 h2 h3]
  have h4x : Tool.path (Tool.mk T1.config params1 T1.predecessors T1.outputs
    T1.start_time) = Value.s pstr := h4
  exact run_invoke_func_error env fuel
    (Tool.mk T1.config params1 T1.predecessors T1.outputs T1.start_time)
    kwargs1 w3 shed2 (freshUuid w2).1 pstr parts func e t3 h4x h5 h6 h7 ht3

def c5Env : Env := fun p =>
  if p == "mod.func" then some (fun _ => .error "boom") else none

theorem run_invocation_failure_witness :
    ∃ w7x : World,
      Tool.run c5Env 2 c4Tool [] exWorld none = .ok (none, w7x, none) ∧
      dbGetTable w7x.db "ActivityIO" = dbGetTable exWorld.db "ActivityIO" ∧
      dbGetTable w7x.db "BatchActivity" = dbGetTable exWorld.db "BatchActivity" ∧
      ∃ tz : Table, dbGetTable w7x.db "Activity" = some tz ∧
        ∀ r ∈ tz.rows, cellEq r "ActivityID" (Value.s "uuid-0") = true →
          pyGet r "Succeeded" = Value.b false ∧
          pyGet r "Message" = Value.s (replaceQuotes "boom") ∧
          pyGet r "EndTime" = Value.s (get_time_string 1) ∧
          pyGet r "Duration" = Value.s (durationString 0 1) :=
  run_invocation_failure c5Env 1 c4Tool [] exWorld none [] none exWorld none
    c4Tool exWorld [] [] (freshUuid exWorld).2 none "mod.func" ("mod", "func")
    (fun _ => .error "boom") "boom"
    (Table.mk ["ActivityID", "ToolID", "ToolName", "ToolPath", "StartTime",
      "EndTime", "Duration", "Succeeded", "Message"] [])
    (by rfl) (by simp [Tool.run_predecessors, Tool.run_preds_go, c4Tool])
    (by rfl) (by simp [Tool.update_inputs, c4Tool]) (by rfl) (by rfl) (by rfl)
    (by rfl) (by rfl)

/-- A world persisting one predecessor tool p1 whose target will raise. -/
def c2World : World := World.mk
  [("Tools", Table.mk ["ToolID", "Name", "Path"]
     [[("ToolID", Value.s "p1"), ("Name", Value.s "pred"),
       ("Path", Value.s "mod.fail")]]),
   ("ToolParams", Table.mk ["ParamID", "ToolID", "Name", "Value", "IsInput",
     "IsResource", "IsRead", "IsWrite", "FeederToolName", "FeederParamName"] []),
   ("ToolPredecessors", Table.mk ["RelationshipID", "ToolID", "PredecessorID"] []),
   ("ToolOutputs", Table.mk ["OutputID", "ToolID", "OutputOrder", "Name"] []),
   ("Resources", Table.mk ["ResourceID", "Name", "Path", "Parent"] []),
   ("Activity", Table.mk ["ActivityID", "ToolID", "ToolName", "ToolPath",
     "StartTime", "EndTime", "Duration", "Succeeded", "Message"] []),
   ("ActivityIO", Table.mk ["IOID", "ActivityID", "ParamID", "ParamName", "Value",
     "IsResource", "IsInput", "IsRead", "IsWrite"] []),
   ("BatchActivity", Table.mk ["RelationshipID", "BatchID", "ActivityID"] [])]
  [] [] 0 0

/-- A dependent tool declaring p1 as its only predecessor. -/
def c2Tool : Tool := Tool.mk
  [("ToolID", Value.s "t2"), ("Name", Value.s "dependent"),
   ("Path", Value.s "mod.func")]
  [] [(Value.s "pred", Value.s "p1")] [] none

def c2Env : Env := fun p =>
  if p == "mod.fail" then some (fun _ => .error "kaput") else none

def c2P : Tool := Tool.mk
  [("ToolID", Value.s "p1"), ("Name", Value.s "pred"),
   ("Path", Value.s "mod.fail")]
  [] [] [] none

/-- The predecessor loop of tool.Tool.run_predecessors splits at a list
append: the suffix is only attempted when the whole prefix succeeded. -/
theorem run_preds_go_append (env : Env) (fuel : Nat) (T : Tool)
    (ps1 : List (Value × Value)) :
    ∀ (ps2 : List (Value × Value)) (kwargs : Kw) (w : World)
      (shed? : Option ResourceShed) (outs : List (Value × Kw))
      (last : Option Value),
    Tool.run_preds_go env fuel T (ps1 ++ ps2) kwargs w shed? outs last =
      match Tool.run_preds_go env fuel T ps1 kwargs w shed? outs last with
      | .error e => .error e
      | .ok (none, l, w1, s1) => .ok (none, l, w1, s1)
      | .ok (some o, l, w1, s1) =>
        Tool.run_preds_go env fuel T ps2 kwargs w1 s1 o l := by
  induction ps1 with
  | nil =>
    intro ps2 kwargs w shed? outs last
    rw [List.nil_append]
    conv =>
      rhs
      rw [Tool.run_preds_go]
  | cons hd rest ih =>
    intro ps2 kwargs w shed? outs last
    obtain ⟨a, pid⟩ := hd
    rw [List.cons_append]
    cases hcfg : Tool.configure_by_id w.db pid with
    | error e => simp only [Tool.run_preds_go, hcfg]
    | ok P =>
      cases hrun : Tool.run env fuel P kwargs w shed? with
      | error e => simp only [Tool.run_preds_go, hcfg, hrun]
      | ok trip =>
        obtain ⟨res, w1, shed1⟩ := trip
        cases res with
        | none => simp only [Tool.run_preds_go, hcfg, hrun]
        | some result =>
          simp only [Tool.run_preds_go, hcfg, hrun]
          exact ih ps2 kwargs w1 shed1 (alSet outs (Tool.name P) result)
            (some (Tool.name P))

/-- C2: if a predecessor's run returns the failure signal, the dependent
tool's run returns the failure signal: the loop stops at the failed
predecessor regardless of what follows it, a diagnostic naming the failed
predecessor is logged, and nothing else changes, so the dependent tool's
own target is never invoked and no Activity row is written for it. -/
theorem run_predecessor_failure (env : Env) (fuel : Nat) (T : Tool)
    (kwargs : Kw) (w : World) (shed? : Option ResourceShed)
    (ps1 : List (Value × Value)) (x pid : Value)
    (ps2 : List (Value × Value)) (outs1 : List (Value × Kw))
    (last1 : Option Value) (w1 : World) (shed1 : Option ResourceShed)
    (P : Tool) (wp : World) (shedp : Option ResourceShed)
    (h0 : (Tool.path T == Value.null) = false)
    (hpreds : T.predecessors = ps1 ++ (x, pid) :: ps2)
    (hpre : Tool.run_preds_go env fuel T ps1 kwargs w shed? [] none =
      .ok (some outs1, last1, w1, shed1))
    (hcfg : Tool.configure_by_id w1.db pid = .ok P)
    (hfail : Tool.run env fuel P kwargs w1 shed1 = .ok (none, wp, shedp)) :
    (∀ tail : List (Value × Value),
      Tool.run_preds_go env fuel T (ps1 ++ (x, pid) :: tail) kwargs w shed?
        [] none =
      .ok (none, none, logAdd wp (failMsg (Tool.name T) (Tool.name P)),
        shedp)) ∧
    Tool.run_predecessors env fuel T kwargs w shed? =
      .ok (none, none, logAdd wp (failMsg (Tool.name T) (Tool.name P)),
        shedp) ∧
    Tool.run env (fuel + 1) T kwargs w shed? =
      .ok (none, logAdd wp (failMsg (Tool.name T) (Tool.name P)), shedp) ∧
    (logAdd wp (failMsg (Tool.name T) (Tool.name P))).log =
      wp.log ++ [failMsg (Tool.name T) (Tool.name P)] ∧
    (logAdd wp (failMsg (Tool.name T) (Tool.name P))).db = wp.db ∧
    (logAdd wp (failMsg (Tool.name T) (Tool.name P))).calls = wp.calls := by
  have hgo : ∀ tail : List (Value × Value),
      Tool.run_preds_go env fuel T (ps1 ++ (x, pid) :: tail) kwargs w shed?
        [] none =
      .ok (none, none, logAdd wp (failMsg (Tool.name T) (Tool.name P)),
        shedp) := by
    intro tail
    rw [run_preds_go_append env fuel T ps1 ((x, pid) :: tail) kwargs w shed?
      [] none, hpre]
    simp only [Tool.run_preds_go, hcfg, hfail]
  have hrp : Tool.run_predecessors env fuel T kwargs w shed? =
      .ok (none, none, logAdd wp (failMsg (Tool.name T) (Tool.name P)),
        shedp) := by
    simp only [Tool.run_predecessors, hpreds, hgo ps2]
  have hrun : Tool.run env (fuel + 1) T kwargs w shed? =
      .ok (none, logAdd wp (failMsg (Tool.name T) (Tool.name P)), shedp) := by
    rw [Tool.run]
    simp only [h0, Bool.false_eq_true, if_false, hrp]
  exact ⟨hgo, hrp, hrun, rfl, rfl, rfl⟩

theorem run_predecessor_failure_witness :
    ∃ wp : World,
      Tool.run c2Env 2 c2Tool [] c2World none =
        .ok (none, logAdd wp (failMsg (Value.s "dependent") (Value.s "pred")),
          none) ∧
      (logAdd wp (failMsg (Value.s "dependent") (Value.s "pred"))).log =
        wp.log ++ [failMsg (Value.s "dependent") (Value.s "pred")] ∧
      (logAdd wp (failMsg (Value.s "dependent") (Value.s "pred"))).db =
        wp.db := by
  obtain ⟨w7x, hrun7, _, _, _⟩ := run_invoke_func_error c2Env 0
    (Tool.mk c2P.config [] c2P.predecessors c2P.outputs c2P.start_time)
    [] (freshUuid c2World).2 none (freshUuid c2World).1 "mod.fail"
    ("mod", "fail") (fun _ => .error "kaput") "kaput"
    (Table.mk ["ActivityID", "ToolID", "ToolName", "ToolPath", "StartTime",
      "EndTime", "Duration", "Succeeded", "Message"] [])
    (by rfl) (by rfl) (by rfl) (by rfl) (by rfl)
  have hfail : Tool.run c2Env (0 + 1) c2P [] c2World none =
      .ok (none, w7x, none) := by
    rw [run_eq_invoke c2Env 0 c2P [] c2World none [] none c2World none c2P
      c2World [] [] (freshUuid c2World).2 none (by rfl)
      (by simp [Tool.run_predecessors, Tool.run_preds_go, c2P]) (by rfl)
      (by rfl)]
    exact hrun7
  have H := run_predecessor_failure c2Env 1 c2Tool [] c2World none []
    (Value.s "pred") (Value.s "p1") [] [] none c2World none c2P w7x none
    (by rfl) (by rfl) (by simp [Tool.run_preds_go]) (by rfl) hfail
  exact ⟨w7x, H.2.2.1, H.2.2.2.1, H.2.2.2.2.1⟩

/-- An input parameter with persisted value "fnord" and no feeder binding. -/
def c3Param : ToolParam := ToolParam.mk
  [("ParamID", Value.s "pm1"), ("ToolID", Value.s "tid"),
   ("Name", Value.s "p"), ("Value", Value.s "fnord"),
   ("IsInput", Value.b true)]
  (Value.s "p")

/-- C3 counterexample: the caller supplies the falsy keyword argument false
for parameter p, yet the resolved input stored into kwargs is the parameter's
own value "fnord", because the code computes
kwargs.get(name, param.value) or param.value. -/
theorem update_inputs_falsy_kwarg_cex :
    (match Tool.update_inputs_step 1 (Value.s "t") (Value.s "tid")
        (Value.s "act") [] none (Value.s "p") c3Param
        [(Value.s "p", Value.b false)] exWorld none with
      | .ok (kwargs1, _, _, _) => alGet kwargs1 (Value.s "p")
      | .error _ => none) = some (Value.s "fnord") ∧
    (Value.s "fnord" == Value.b false) = false := by
  exact ⟨rfl, rfl⟩

/-- C3 (amended): for an input parameter with no applicable feeder binding,
the candidate is the caller's keyword argument when supplied, else the
parameter's own value; the candidate only becomes the resolved value when it
is truthy, a falsy candidate falling back to the parameter's own value. The
resolved value is case-folded from the strings true/false to booleans,
stored into kwargs under the parameter's name, and recorded via record_io. -/
theorem update_inputs_resolution (fuel : Nat)
    (tool_name tool_id activity_id : Value)
    (pred_outputs : List (Value × Kw)) (dpn : Option Value) (name : Value)
    (p : ToolParam) (kwargs : Kw) (w : World) (shed? : Option ResourceShed)
    (pv : Value) (shed2 : Option ResourceShed)
    (hin : pyTruthy (ToolParam.is_input p) = true)
    (hfp : pyTruthy (ToolParam.feeder_param_name p) = false)
    (hval : ToolParam.value w.db fuel p shed? = .ok (pv, shed2)) :
    Tool.update_inputs_step fuel tool_name tool_id activity_id pred_outputs
      dpn name p kwargs w shed? =
      (if pyTruthy ((alGet kwargs name).getD pv) = true then
        match ToolParam.record_io w p activity_id
            (boolCast ((alGet kwargs name).getD pv)) tool_id with
        | .error e => .error e
        | .ok (p2, w2) =>
          .ok (alSet kwargs name (boolCast ((alGet kwargs name).getD pv)),
            p2, w2, shed2)
      else
        match ToolParam.value w.db fuel p shed2 with
        | .error e => .error e
        | .ok (pv2, shed3) =>
          match ToolParam.record_io w p activity_id (boolCast pv2) tool_id with
          | .error e => .error e
          | .ok (p2, w2) => .ok (alSet kwargs name (boolCast pv2), p2, w2,
              shed3)) ∧
    boolCast (Value.s "TRUE") = Value.b true ∧
    boolCast (Value.s "False") = Value.b false ∧
    boolCast (Value.s "fnord") = Value.s "fnord" := by
  refine ⟨?_, rfl, rfl, rfl⟩
  simp only [Tool.update_inputs_step, hin, hfp, Bool.true_eq_false,
    Bool.false_eq_true, if_false, false_and, and_false, hval]
  by_cases hc : pyTruthy ((alGet kwargs name).getD pv) = true
  · simp only [hc, if_true]
  · rw [Bool.not_eq_true] at hc
    simp only [hc, Bool.false_eq_true, if_false]

theorem update_inputs_resolution_witness :
    (match Tool.update_inputs_step 1 (Value.s "t") (Value.s "tid")
        (Value.s "act") [] none (Value.s "p") c3Param
        [(Value.s "p", Value.s "caller")] exWorld none with
      | .ok (kwargs1, _, _, _) => alGet kwargs1 (Value.s "p")
      | .error _ => none) = some (Value.s "caller") := by
  have H := update_inputs_resolution 1 (Value.s "t") (Value.s "tid")
    (Value.s "act") [] none (Value.s "p") c3Param
    [(Value.s "p", Value.s "caller")] exWorld none (Value.s "fnord") none
    (by rfl) (by rfl) (by rfl)
  rw [H.1]
  rfl
